import Mathlib

/-!
Verification development for the `save_hdfeos5.py` program (PySAR).

We give a shallow embedding of the metadata-translation and
filename-synthesis functions of the program:

* `get_mission_name`        (source lines 72-116),
* `metadata_pysar2unavco`   (source lines 119-248), and
* `get_output_filename`     (source lines 268-318),

together with the Python string/number primitives they rely on.
Python dictionaries are modelled as insertion-ordered association
lists (`alookup` / `dictInsert`); fallible Python code is modelled in
`Except String`; Python floats are modelled by exact rationals `ℚ`
(the numeric claims below are insensitive to this choice); the wall
clock read by `datetime.utcnow()` is passed in explicitly as the
`today` argument.
-/

/-! ## Python string primitives, modelled on `List Char` -/

/-- Python `str.lower()` (ASCII range, which covers all inputs used here). -/
def pyLower (s : String) : String := ⟨s.data.map Char.toLower⟩

/-- Python `str.startswith(p)`. -/
def pyStartsWith (s p : String) : Bool := p.data.isPrefixOf s.data

/-- Python `str.endswith(p)`. -/
def pyEndsWith (s p : String) : Bool := p.data.isSuffixOf s.data

/-- Split a character list at the first occurrence of `sep` (a nonempty
pattern): returns the part before it and the part after it. -/
def splitFirst (sep : List Char) : List Char → Option (List Char × List Char)
  | [] => Option.none
  | c :: rest =>
    if sep.isPrefixOf (c :: rest) then some ([], (c :: rest).drop sep.length)
    else
      match splitFirst sep rest with
      | some (a, b) => some (c :: a, b)
      | Option.none => Option.none

/-- Python `pat in s` (substring containment, for nonempty `pat`). -/
def strContains (s pat : String) : Bool := (splitFirst pat.data s.data).isSome

/-- Fuelled worker for `pySplit`. -/
def pySplitAux (sep : List Char) : Nat → List Char → List (List Char)
  | 0, l => [l]
  | Nat.succ fuel, l =>
    match splitFirst sep l with
    | Option.none => [l]
    | some (a, b) => a :: pySplitAux sep fuel b

/-- Python `s.split(sep)` for a nonempty separator. -/
def pySplit (sep l : List Char) : List (List Char) := pySplitAux sep (l.length + 1) l

/-- Python `key.split(marker)[1]`: the segment strictly between the first
occurrence of `marker` and the following occurrence (or the end). -/
def aliasSuffix (k marker : String) : String :=
  match splitFirst marker.data k.data with
  | some (_, rest) =>
    match splitFirst marker.data rest with
    | some (mid, _) => ⟨mid⟩
    | Option.none => ⟨rest⟩
  | Option.none => ""

/-- `os.path.splitext`, on the character list: split at the last dot. -/
def splitextL (l : List Char) : List Char × List Char :=
  match splitFirst ['.'] l.reverse with
  | some (a, b) => (b.reverse, '.' :: a.reverse)
  | Option.none => (l, [])

/-- `os.path.splitext` (for the plain file names synthesized here). -/
def splitext (s : String) : String × String :=
  (⟨(splitextL s.data).1⟩, ⟨(splitextL s.data).2⟩)

/-! ## Python numeric primitives -/

/-- Numeric value of a digit list (most significant first). -/
def digitsToNat (l : List Char) : Nat :=
  l.foldl (fun acc c => acc * 10 + (c.toNat - 48)) 0

/-- Python `int(s)` on a character list: optional sign, then digits. -/
def pyIntL : List Char → Option Int
  | [] => Option.none
  | c :: rest =>
    if c = '-' then
      if rest ≠ [] ∧ rest.all Char.isDigit then some (-(digitsToNat rest : Int)) else Option.none
    else if c = '+' then
      if rest ≠ [] ∧ rest.all Char.isDigit then some ((digitsToNat rest : Int)) else Option.none
    else if (c :: rest).all Char.isDigit then some ((digitsToNat (c :: rest) : Int))
    else Option.none

/-- Python `int(s)` for a string. -/
def pyInt (s : String) : Option Int := pyIntL s.data

/-- Parse an unsigned decimal mantissa `digits[.digits]` into `ℚ`. -/
def pyMantissa (l : List Char) : Option ℚ :=
  match splitFirst ['.'] l with
  | Option.none =>
    if l ≠ [] ∧ l.all Char.isDigit then some ((digitsToNat l : ℚ)) else Option.none
  | some (ip, fp) =>
    if (ip ≠ [] ∨ fp ≠ []) ∧ ip.all Char.isDigit ∧ fp.all Char.isDigit then
      some (((digitsToNat ip * 10 ^ fp.length + digitsToNat fp : ℚ)) / (10 : ℚ) ^ fp.length)
    else Option.none

/-- Python `float(s)`: optional sign, decimal mantissa, optional exponent.
(`inf`/`nan` literals are not modelled; no claim uses them.) -/
def pyFloat (s : String) : Option ℚ :=
  match s.data with
  | [] => Option.none
  | c :: rest =>
    let (sign, body) : ℚ × List Char :=
      if c = '-' then (-1, rest) else if c = '+' then (1, rest) else (1, c :: rest)
    let mantExp : List Char × Option (List Char) :=
      match splitFirst ['e'] body with
      | some (m, e) => (m, some e)
      | Option.none =>
        match splitFirst ['E'] body with
        | some (m, e) => (m, some e)
        | Option.none => (body, Option.none)
    match pyMantissa mantExp.1 with
    | Option.none => Option.none
    | some q =>
      match mantExp.2 with
      | Option.none => some (sign * q)
      | some e =>
        match pyIntL e with
        | some z => some (sign * q * (10 : ℚ) ^ z)
        | Option.none => Option.none

/-- Python `round(x)` on the exact value: round half to even. -/
def pyRound (q : ℚ) : Int :=
  let f := ⌊q⌋
  let r := q - (f : ℚ)
  if r < 1 / 2 then f
  else if 1 / 2 < r then f + 1
  else if 2 ∣ f then f else f + 1

/-- Decimal rendering of a natural number. -/
def natStr (n : Nat) : String := toString n

/-- Decimal rendering of an integer (Python `str` of an int). -/
def intStr (n : Int) : String := toString n

/-- Zero pad a natural number to at least `w` digits. -/
def padNat (w n : Nat) : String :=
  String.mk (List.replicate (w - (natStr n).length) '0') ++ natStr n

/-- Python `'%0wd' % n`: zero pad to total width `w`, sign included. -/
def padInt (w : Nat) (n : Int) : String :=
  let sign := if n < 0 then "-" else ""
  let ds := natStr n.natAbs
  sign ++ String.mk (List.replicate (w - (sign.length + ds.length)) '0') ++ ds

/-- Rendering of a rational as a decimal-looking string; stands in for
Python `str(float)` (no claim constrains the digits themselves). -/
def ratStr (q : ℚ) : String :=
  if q.den = 1 then intStr q.num ++ ".0" else intStr q.num ++ "/" ++ natStr q.den

/-! ## Dates -/

def isLeapYear (y : Nat) : Bool := (y % 4 = 0 && y % 100 ≠ 0) || y % 400 = 0

def daysInMonth (y m : Nat) : Nat :=
  if m = 2 then (if isLeapYear y then 29 else 28)
  else if m = 4 || m = 6 || m = 9 || m = 11 then 30
  else 31

/-- `datetime.strptime(s, '%Y%m%d').isoformat()[0:10]`:
reformat a valid `YYYYMMDD` date as `YYYY-MM-DD`, failing otherwise. -/
def reformat8 (s : String) : Option String :=
  match s.data with
  | [y1, y2, y3, y4, m1, m2, d1, d2] =>
    if ([y1, y2, y3, y4, m1, m2, d1, d2]).all Char.isDigit then
      let y := digitsToNat [y1, y2, y3, y4]
      let m := digitsToNat [m1, m2]
      let d := digitsToNat [d1, d2]
      if 1 ≤ y ∧ 1 ≤ m ∧ m ≤ 12 ∧ 1 ≤ d ∧ d ≤ daysInMonth y m then
        some (padNat 4 y ++ "-" ++ padNat 2 m ++ "-" ++ padNat 2 d)
      else Option.none
    else Option.none
  | _ => Option.none

/-- `datetime.strptime(s, '%Y-%m-%d').strftime('%Y%m%d')`:
reformat a valid `YYYY-MM-DD` date as `YYYYMMDD`, failing otherwise. -/
def reformatISO (s : String) : Option String :=
  match pySplit ['-'] s.data with
  | [ys, ms, ds] =>
    if (!ys.isEmpty) && ys.all Char.isDigit && ys.length ≤ 4 &&
       (!ms.isEmpty) && ms.all Char.isDigit && ms.length ≤ 2 &&
       (!ds.isEmpty) && ds.all Char.isDigit && ds.length ≤ 2 then
      let y := digitsToNat ys
      let m := digitsToNat ms
      let d := digitsToNat ds
      if 1 ≤ y ∧ 1 ≤ m ∧ m ≤ 12 ∧ 1 ≤ d ∧ d ≤ daysInMonth y m then
        some (padNat 4 y ++ padNat 2 m ++ padNat 2 d)
      else Option.none
    else Option.none
  | _ => Option.none

/-! ## Dictionaries (Python `dict`, insertion ordered) -/

/-- The source attribute map: string keys to string values. -/
abbrev SDict := List (String × String)

/-- `d[k]`, as an option. -/
def alookup {α : Type} : List (String × α) → String → Option α
  | [], _ => Option.none
  | (k', v) :: t, k => if k' = k then some v else alookup t k

/-- `d[k] = v`: update in place if the key exists, else append. -/
def dictInsert {α : Type} : List (String × α) → String → α → List (String × α)
  | [], k, v => [(k, v)]
  | (k', v') :: t, k, v => if k' = k then (k, v) :: t else (k', v') :: dictInsert t k v

/-- `k in d.keys()`. -/
def dmem {α : Type} (d : List (String × α)) (k : String) : Bool := (alookup d k).isSome

/-! ## `get_mission_name` (source lines 72-116) -/

/-- The prefix-classification chain of `get_mission_name`, applied to the
lower-cased platform indicator. -/
def classify_mission (value : String) : Option String :=
  if pyStartsWith value "ers" then some "ERS"
  else if pyStartsWith value "env" || pyStartsWith value "asar" then some "ENV"
  else if pyStartsWith value "s1" || pyStartsWith value "sen" then some "S1"
  else if pyStartsWith value "rs" || pyStartsWith value "rsat" || pyStartsWith value "radarsat" then
    (if pyEndsWith value "1" then some "RS1" else some "RS2")
  else if pyStartsWith value "csk" || pyStartsWith value "cos" then some "CSK"
  else if pyStartsWith value "tsx" || pyStartsWith value "tdx" ||
          pyStartsWith value "terra" || pyStartsWith value "tandem" then some "TSX"
  else if pyStartsWith value "jers" then some "JERS"
  else if pyStartsWith value "alos" || pyStartsWith value "palsar" then
    (if pyEndsWith value "2" then some "ALOS2" else some "ALOS")
  else Option.none

/-- `get_mission_name(meta_dict)`: read `mission` if present, else
`PLATFORM`; lower-case; classify.  `Option.none` models the Python
`None` result (the function never raises). -/
def get_mission_name (d : SDict) : Option String :=
  match alookup d "mission" with
  | some v => classify_mission (pyLower v)
  | Option.none =>
    match alookup d "PLATFORM" with
    | some v => classify_mission (pyLower v)
    | Option.none => Option.none

/-- The claim-side notion of the mission indicator: the value of
`mission` if present, else of `PLATFORM`. -/
def mission_indicator (d : SDict) : Option String :=
  match alookup d "mission" with
  | some v => some v
  | Option.none => alookup d "PLATFORM"

/-- The fixed prefix table of the mission classifier. -/
def missionPrefixes : List String :=
  ["ers", "env", "asar", "s1", "sen", "rs", "rsat", "radarsat", "csk", "cos",
   "tsx", "tdx", "terra", "tandem", "jers", "alos", "palsar"]

theorem get_mission_name_eq (d : SDict) :
    get_mission_name d =
      match mission_indicator d with
      | some v => classify_mission (pyLower v)
      | Option.none => Option.none := by
  unfold get_mission_name mission_indicator
  cases alookup d "mission" <;> cases alookup d "PLATFORM" <;> rfl

/-! Prefix comparability: two prefixes of the same list are comparable,
so incompatible literal prefixes exclude each other. -/

theorem isPrefixOf_comparable :
    ∀ (s p q : List Char), p.isPrefixOf s = true → q.isPrefixOf s = true →
      p.isPrefixOf q = true ∨ q.isPrefixOf p = true := by
  intro s
  induction s with
  | nil =>
    intro p q hp hq
    cases p <;> cases q <;> simp_all [List.isPrefixOf]
  | cons c t ih =>
    intro p q hp hq
    cases p with
    | nil => left; cases q <;> rfl
    | cons a p' =>
      cases q with
      | nil => right; rfl
      | cons b q' =>
        simp only [List.isPrefixOf, Bool.and_eq_true, beq_iff_eq] at hp hq
        rcases hp with ⟨rfl, hp'⟩
        rcases hq with ⟨rfl, hq'⟩
        rcases ih p' q' hp' hq' with h | h <;>
          simp [List.isPrefixOf, h]

theorem startsWith_excl {s : String} (p q : String)
    (h : pyStartsWith s p = true)
    (h1 : p.data.isPrefixOf q.data = false) (h2 : q.data.isPrefixOf p.data = false) :
    pyStartsWith s q = false := by
  unfold pyStartsWith at h ⊢
  by_contra hq
  rw [Bool.not_eq_false] at hq
  rcases isPrefixOf_comparable s.data p.data q.data h hq with hc | hc
  · rw [h1] at hc; exact Bool.false_ne_true hc
  · rw [h2] at hc; exact Bool.false_ne_true hc

/-- C1: for every attribute map whose mission indicator (value of
`mission` if present, else `PLATFORM`, lower-cased) matches the fixed
prefix table, `get_mission_name` returns the documented canonical code
(`ers`→ERS; `env`/`asar`→ENV; `s1`/`sen`→S1; `rs`/`rsat`/`radarsat`→RS1
when the value ends in "1" else RS2; `csk`/`cos`→CSK;
`tsx`/`tdx`/`terra`/`tandem`→TSX; `jers`→JERS; `alos`/`palsar`→ALOS2
when the value ends in "2" else ALOS); for every indicator matching no
prefix of the table, and for every map with neither key, it returns
`Option.none` and does not raise. -/
theorem C1_mission_table :
    (∀ d v, mission_indicator d = some v → pyStartsWith (pyLower v) "ers" = true →
      get_mission_name d = some "ERS") ∧
    (∀ d v, mission_indicator d = some v →
      (pyStartsWith (pyLower v) "env" = true ∨ pyStartsWith (pyLower v) "asar" = true) →
      get_mission_name d = some "ENV") ∧
    (∀ d v, mission_indicator d = some v →
      (pyStartsWith (pyLower v) "s1" = true ∨ pyStartsWith (pyLower v) "sen" = true) →
      get_mission_name d = some "S1") ∧
    (∀ d v, mission_indicator d = some v →
      (pyStartsWith (pyLower v) "rs" = true ∨ pyStartsWith (pyLower v) "rsat" = true ∨
        pyStartsWith (pyLower v) "radarsat" = true) →
      get_mission_name d = some (if pyEndsWith (pyLower v) "1" then "RS1" else "RS2")) ∧
    (∀ d v, mission_indicator d = some v →
      (pyStartsWith (pyLower v) "csk" = true ∨ pyStartsWith (pyLower v) "cos" = true) →
      get_mission_name d = some "CSK") ∧
    (∀ d v, mission_indicator d = some v →
      (pyStartsWith (pyLower v) "tsx" = true ∨ pyStartsWith (pyLower v) "tdx" = true ∨
        pyStartsWith (pyLower v) "terra" = true ∨ pyStartsWith (pyLower v) "tandem" = true) →
      get_mission_name d = some "TSX") ∧
    (∀ d v, mission_indicator d = some v → pyStartsWith (pyLower v) "jers" = true →
      get_mission_name d = some "JERS") ∧
    (∀ d v, mission_indicator d = some v →
      (pyStartsWith (pyLower v) "alos" = true ∨ pyStartsWith (pyLower v) "palsar" = true) →
      get_mission_name d = some (if pyEndsWith (pyLower v) "2" then "ALOS2" else "ALOS")) ∧
    (∀ d v, mission_indicator d = some v →
      (∀ p ∈ missionPrefixes, pyStartsWith (pyLower v) p = false) →
      get_mission_name d = Option.none) ∧
    (∀ d, mission_indicator d = Option.none → get_mission_name d = Option.none) := by
  refine ⟨?_, ?_, ?_, ?_, ?_, ?_, ?_, ?_, ?_, ?_⟩
  · intro d v h hv
    rw [get_mission_name_eq, h]
    simp [classify_mission, hv]
  · intro d v h hv
    rw [get_mission_name_eq, h]
    rcases hv with hv | hv <;>
    · have e1 := startsWith_excl _ "ers" hv (by decide) (by decide)
      simp [classify_mission, e1, hv]
  · intro d v h hv
    rw [get_mission_name_eq, h]
    rcases hv with hv | hv <;>
    · have e1 := startsWith_excl _ "ers" hv (by decide) (by decide)
      have e2 := startsWith_excl _ "env" hv (by decide) (by decide)
      have e3 := startsWith_excl _ "asar" hv (by decide) (by decide)
      simp [classify_mission, e1, e2, e3, hv]
  · intro d v h hv
    rw [get_mission_name_eq, h]
    rcases hv with hv | hv | hv <;>
    · have e1 := startsWith_excl _ "ers" hv (by decide) (by decide)
      have e2 := startsWith_excl _ "env" hv (by decide) (by decide)
      have e3 := startsWith_excl _ "asar" hv (by decide) (by decide)
      have e4 := startsWith_excl _ "s1" hv (by decide) (by decide)
      have e5 := startsWith_excl _ "sen" hv (by decide) (by decide)
      by_cases he : pyEndsWith (pyLower v) "1" <;>
        simp [classify_mission, e1, e2, e3, e4, e5, hv, he]
  · intro d v h hv
    rw [get_mission_name_eq, h]
    rcases hv with hv | hv <;>
    · have e1 := startsWith_excl _ "ers" hv (by decide) (by decide)
      have e2 := startsWith_excl _ "env" hv (by decide) (by decide)
      have e3 := startsWith_excl _ "asar" hv (by decide) (by decide)
      have e4 := startsWith_excl _ "s1" hv (by decide) (by decide)
      have e5 := startsWith_excl _ "sen" hv (by decide) (by decide)
      have e6 := startsWith_excl _ "rs" hv (by decide) (by decide)
      have e7 := startsWith_excl _ "rsat" hv (by decide) (by decide)
      have e8 := startsWith_excl _ "radarsat" hv (by decide) (by decide)
      simp [classify_mission, e1, e2, e3, e4, e5, e6, e7, e8, hv]
  · intro d v h hv
    rw [get_mission_name_eq, h]
    rcases hv with hv | hv | hv | hv <;>
    · have e1 := startsWith_excl _ "ers" hv (by decide) (by decide)
      have e2 := startsWith_excl _ "env" hv (by decide) (by decide)
      have e3 := startsWith_excl _ "asar" hv (by decide) (by decide)
      have e4 := startsWith_excl _ "s1" hv (by decide) (by decide)
      have e5 := startsWith_excl _ "sen" hv (by decide) (by decide)
      have e6 := startsWith_excl _ "rs" hv (by decide) (by decide)
      have e7 := startsWith_excl _ "rsat" hv (by decide) (by decide)
      have e8 := startsWith_excl _ "radarsat" hv (by decide) (by decide)
      have e9 := startsWith_excl _ "csk" hv (by decide) (by decide)
      have e10 := startsWith_excl _ "cos" hv (by decide) (by decide)
      simp [classify_mission, e1, e2, e3, e4, e5, e6, e7, e8, e9, e10, hv]
  · intro d v h hv
    rw [get_mission_name_eq, h]
    have e1 := startsWith_excl _ "ers" hv (by decide) (by decide)
    have e2 := startsWith_excl _ "env" hv (by decide) (by decide)
    have e3 := startsWith_excl _ "asar" hv (by decide) (by decide)
    have e4 := startsWith_excl _ "s1" hv (by decide) (by decide)
    have e5 := startsWith_excl _ "sen" hv (by decide) (by decide)
    have e6 := startsWith_excl _ "rs" hv (by decide) (by decide)
    have e7 := startsWith_excl _ "rsat" hv (by decide) (by decide)
    have e8 := startsWith_excl _ "radarsat" hv (by decide) (by decide)
    have e9 := startsWith_excl _ "csk" hv (by decide) (by decide)
    have e10 := startsWith_excl _ "cos" hv (by decide) (by decide)
    have e11 := startsWith_excl _ "tsx" hv (by decide) (by decide)
    have e12 := startsWith_excl _ "tdx" hv (by decide) (by decide)
    have e13 := startsWith_excl _ "terra" hv (by decide) (by decide)
    have e14 := startsWith_excl _ "tandem" hv (by decide) (by decide)
    simp [classify_mission, e1, e2, e3, e4, e5, e6, e7, e8, e9, e10, e11, e12, e13, e14, hv]
  · intro d v h hv
    rw [get_mission_name_eq, h]
    rcases hv with hv | hv <;>
    · have e1 := startsWith_excl _ "ers" hv (by decide) (by decide)
      have e2 := startsWith_excl _ "env" hv (by decide) (by decide)
      have e3 := startsWith_excl _ "asar" hv (by decide) (by decide)
      have e4 := startsWith_excl _ "s1" hv (by decide) (by decide)
      have e5 := startsWith_excl _ "sen" hv (by decide) (by decide)
      have e6 := startsWith_excl _ "rs" hv (by decide) (by decide)
      have e7 := startsWith_excl _ "rsat" hv (by decide) (by decide)
      have e8 := startsWith_excl _ "radarsat" hv (by decide) (by decide)
      have e9 := startsWith_excl _ "csk" hv (by decide) (by decide)
      have e10 := startsWith_excl _ "cos" hv (by decide) (by decide)
      have e11 := startsWith_excl _ "tsx" hv (by decide) (by decide)
      have e12 := startsWith_excl _ "tdx" hv (by decide) (by decide)
      have e13 := startsWith_excl _ "terra" hv (by decide) (by decide)
      have e14 := startsWith_excl _ "tandem" hv (by decide) (by decide)
      have e15 := startsWith_excl _ "jers" hv (by decide) (by decide)
      by_cases he : pyEndsWith (pyLower v) "2" <;>
        simp [classify_mission, e1, e2, e3, e4, e5, e6, e7, e8, e9, e10, e11, e12, e13,
          e14, e15, hv, he]
  · intro d v h hall
    rw [get_mission_name_eq, h]
    simp [classify_mission,
      hall "ers" (by decide), hall "env" (by decide), hall "asar" (by decide),
      hall "s1" (by decide), hall "sen" (by decide), hall "rs" (by decide),
      hall "rsat" (by decide), hall "radarsat" (by decide), hall "csk" (by decide),
      hall "cos" (by decide), hall "tsx" (by decide), hall "tdx" (by decide),
      hall "terra" (by decide), hall "tandem" (by decide), hall "jers" (by decide),
      hall "alos" (by decide), hall "palsar" (by decide)]
  · intro d h
    rw [get_mission_name_eq, h]

/-- C1 witness: the classifier applied to concrete maps, through the
conjuncts of `C1_mission_table`. -/
theorem C1_mission_table_witness :
    get_mission_name [("mission", "Sentinel-1")] = some "S1" ∧
    get_mission_name [("PLATFORM", "ALOS-2")] = some "ALOS2" ∧
    get_mission_name [("PLATFORM", "Gaofen-3")] = Option.none := by
  refine ⟨?_, ?_, ?_⟩
  · exact C1_mission_table.2.2.1 _ "Sentinel-1" rfl (Or.inr (by decide))
  · have h := C1_mission_table.2.2.2.2.2.2.2.1 [("PLATFORM", "ALOS-2")] "ALOS-2" rfl
      (Or.inl (by decide))
    simpa using h
  · exact C1_mission_table.2.2.2.2.2.2.2.2.1 _ "Gaofen-3" rfl (by decide)

/-! ## Mixed-type metadata values

The archive metadata dictionary produced by `metadata_pysar2unavco`
holds strings, Python ints, Python floats and `None`. -/

inductive Value : Type where
  | str (s : String)
  | int (n : Int)
  | float (q : ℚ)
  | none
deriving DecidableEq, Repr

/-- The archive metadata map: string keys to mixed values. -/
abbrev VDict := List (String × Value)

/-- Python `str(v)`. -/
def strV : Value → String
  | Value.str s => s
  | Value.int n => intStr n
  | Value.float q => ratStr q
  | Value.none => "None"

/-- Python truthiness of a value. -/
def truthyV : Value → Bool
  | Value.str s => !s.isEmpty
  | Value.int n => !(n == 0)
  | Value.float q => !(q == 0)
  | Value.none => false

/-- `d[k]` on the source map, `KeyError` when absent. -/
def getKey (pm : SDict) (k : String) : Except String String :=
  match alookup pm k with
  | some v => Except.ok v
  | Option.none => Except.error ("KeyError: " ++ k)

/-- `metadata[k]` on the archive map, `KeyError` when absent. -/
def getV (d : VDict) (k : String) : Except String Value :=
  match alookup d k with
  | some v => Except.ok v
  | Option.none => Except.error ("KeyError: " ++ k)

/-- A value used where Python needs a `str` (e.g. concatenation);
anything else raises `TypeError`. -/
def asStrE : Value → Except String String
  | Value.str s => Except.ok s
  | _ => Except.error "TypeError: expected str"

/-- Python `int(x)` truncates floats toward zero. -/
def ratTrunc (q : ℚ) : Int := if q < 0 then -⌊-q⌋ else ⌊q⌋

/-- Python `int(v)` on a mixed value. -/
def pyIntVE : Value → Except String Int
  | Value.int n => Except.ok n
  | Value.float q => Except.ok (ratTrunc q)
  | Value.str s =>
    match pyInt s with
    | some n => Except.ok n
    | Option.none => Except.error ("ValueError: invalid literal for int: " ++ s)
  | Value.none => Except.error "TypeError: int of None"

/-- Python `float(v)` on a mixed value. -/
def pyFloatVE : Value → Except String ℚ
  | Value.float q => Except.ok q
  | Value.int n => Except.ok ((n : ℚ))
  | Value.str s =>
    match pyFloat s with
    | some q => Except.ok q
    | Option.none => Except.error ("ValueError: could not convert string to float: " ++ s)
  | Value.none => Except.error "TypeError: float of None"

/-! ## `metadata_pysar2unavco` (source lines 119-248) -/

/-- The key-aliasing pass (source lines 121-127): copy every source
pair in iteration order; a key containing `unavco.` or `hdfEos5.` is
additionally inserted under its suffix. -/
def aliasPass (m : SDict) : SDict :=
  m.foldl
    (fun d kv =>
      let d := dictInsert d kv.1 kv.2
      let d := if strContains kv.1 "unavco." then dictInsert d (aliasSuffix kv.1 "unavco.") kv.2 else d
      if strContains kv.1 "hdfEos5." then dictInsert d (aliasSuffix kv.1 "hdfEos5.") kv.2 else d)
    []

/-- Source lines 136-139: `get_mission_name` never raises `ValueError`,
so the `try` always succeeds, possibly with a `None` mission. -/
def missionValue (pm : SDict) : Value :=
  match get_mission_name pm with
  | some s => Value.str s
  | Option.none => Value.none

/-- Source lines 143-146: `int(pm['beam_swath'])` with a bare
`except` that defaults to 0 (covers both a missing key and an
unparsable value). -/
def beamSwathVal (pm : SDict) : Int :=
  match alookup pm "beam_swath" with
  | some s => (pyInt s).getD 0
  | Option.none => 0

/-- Source lines 153-156: `processing_type` with default. -/
def processingTypeVal (pm : SDict) : String :=
  (alookup pm "processing_type").getD "LOS_TIMESERIES"

/-- The scene-footprint WKT string (source lines 164-178): corner
order 1, 3, 4, 2, then 1 again to close the ring. -/
def footprintWkt (l1 l3 l4 l2 t1 t3 t4 t2 : String) : String :=
  "POLYGON((" ++ l1 ++ " " ++ t1 ++ "," ++ l3 ++ " " ++ t3 ++ "," ++ l4 ++ " " ++ t4 ++
    "," ++ l2 ++ " " ++ t2 ++ "," ++ l1 ++ " " ++ t1 ++ "))"

/-- Required-metadata section of the translator (source lines
130-180).  `today` is the date part of `datetime.utcnow()`. -/
def requiredMeta (pm : SDict) (dates : List String) (today : String) : Except String VDict :=
  let d : VDict := []
  let d := dictInsert d "mission" (missionValue pm)
  match getKey pm "beam_mode" with
  | Except.error e => Except.error e
  | Except.ok bm =>
  let d := dictInsert d "beam_mode" (Value.str bm)
  let d := dictInsert d "beam_swath" (Value.int (beamSwathVal pm))
  match getKey pm "relative_orbit" with
  | Except.error e => Except.error e
  | Except.ok ro =>
  match pyInt ro with
  | Option.none => Except.error ("ValueError: invalid literal for int: " ++ ro)
  | some ron =>
  let d := dictInsert d "relative_orbit" (Value.int ron)
  let d := dictInsert d "processing_type" (Value.str (processingTypeVal pm))
  match dates.head? with
  | Option.none => Except.error "IndexError: list index out of range"
  | some d0 =>
  match reformat8 d0 with
  | Option.none => Except.error ("ValueError: time data does not match format: " ++ d0)
  | some fd =>
  let d := dictInsert d "first_date" (Value.str fd)
  match dates.getLast? with
  | Option.none => Except.error "IndexError: list index out of range"
  | some dn =>
  match reformat8 dn with
  | Option.none => Except.error ("ValueError: time data does not match format: " ++ dn)
  | some ld =>
  let d := dictInsert d "last_date" (Value.str ld)
  match getKey pm "LON_REF1" with
  | Except.error e => Except.error e
  | Except.ok l1 =>
  match getKey pm "LON_REF3" with
  | Except.error e => Except.error e
  | Except.ok l3 =>
  match getKey pm "LON_REF4" with
  | Except.error e => Except.error e
  | Except.ok l4 =>
  match getKey pm "LON_REF2" with
  | Except.error e => Except.error e
  | Except.ok l2 =>
  match getKey pm "LAT_REF1" with
  | Except.error e => Except.error e
  | Except.ok t1 =>
  match getKey pm "LAT_REF3" with
  | Except.error e => Except.error e
  | Except.ok t3 =>
  match getKey pm "LAT_REF4" with
  | Except.error e => Except.error e
  | Except.ok t4 =>
  match getKey pm "LAT_REF2" with
  | Except.error e => Except.error e
  | Except.ok t2 =>
  let d := dictInsert d "scene_footprint" (Value.str (footprintWkt l1 l3 l4 l2 t1 t3 t4 t2))
  let d := dictInsert d "history" (Value.str today)
  Except.ok d

/-- Source lines 186-191: `frame` from `frame` else `first_frame`
else 0; an unparsable present value raises. -/
def frameVal (pm : SDict) : Except String Int :=
  match alookup pm "frame" with
  | some v =>
    match pyInt v with
    | some n => Except.ok n
    | Option.none => Except.error ("ValueError: invalid literal for int: " ++ v)
  | Option.none =>
    match alookup pm "first_frame" with
    | some v =>
      match pyInt v with
      | some n => Except.ok n
      | Option.none => Except.error ("ValueError: invalid literal for int: " ++ v)
    | Option.none => Except.ok 0

/-- A `try: d[dst] = pm[src] except: pass` step. -/
def addOpt (pm : SDict) (d : VDict) (src dst : String) : VDict :=
  match alookup pm src with
  | some v => dictInsert d dst (Value.str v)
  | Option.none => d

/-- A `try: d[dst] = pm[src] except: d[dst] = default` step. -/
def addOptD (pm : SDict) (d : VDict) (src dst : String) (dflt : Value) : VDict :=
  match alookup pm src with
  | some v => dictInsert d dst (Value.str v)
  | Option.none => dictInsert d dst dflt

/-- A `try: d[dst] = float(pm[src]) except: pass` step. -/
def addOptFloat (pm : SDict) (d : VDict) (src dst : String) : VDict :=
  match alookup pm src with
  | some v =>
    match pyFloat v with
    | some q => dictInsert d dst (Value.float q)
    | Option.none => d
  | Option.none => d

/-- Source lines 211-214: `flight_direction` is the upper-cased first
character of `ORBIT_DIRECTION`; a missing key or empty string is
swallowed by the bare `except`. -/
def flightStep (pm : SDict) (d : VDict) : VDict :=
  match alookup pm "ORBIT_DIRECTION" with
  | some v =>
    match v.data with
    | c :: _ => dictInsert d "flight_direction" (Value.str (String.mk [c.toUpper]))
    | [] => d
  | Option.none => d

/-- Recommended-metadata section of the translator (source lines
182-230). -/
def recommendedMeta (pm : SDict) (d : VDict) : Except String VDict :=
  match frameVal pm with
  | Except.error e => Except.error e
  | Except.ok fr =>
  let d := dictInsert d "frame" (Value.int fr)
  let d := addOpt pm d "atmos_correct_method" "atmos_correct_method"
  let d := addOptD pm d "post_processing_method" "post_processing_method" (Value.str "PYSAR")
  let d := addOpt pm d "processing_dem" "processing_dem"
  let d := addOpt pm d "unwrap_method" "unwrap_method"
  let d := flightStep pm d
  match getKey pm "ANTENNA_SIDE" with
  | Except.error e => Except.error e
  | Except.ok a =>
  let d := dictInsert d "look_direction" (Value.str (if a = "-1" then "R" else "L"))
  let d := addOpt pm d "POLARIZATION" "polarization"
  let d := addOptFloat pm d "PRF" "prf"
  let d := addOptFloat pm d "WAVELENGTH" "wavelength"
  Except.ok d

/-- The rectangular data-footprint WKT string (source lines 241-244):
corners lower-left, lower-right, upper-right, upper-left, lower-left
(in terms of the origin corner `(lon0, lat0)` and the opposite corner
`(lon1, lat1)`). -/
def wktRect (lon0 lat0 lon1 lat1 : ℚ) : String :=
  "POLYGON((" ++ ratStr lon0 ++ " " ++ ratStr lat0 ++ "," ++ ratStr lon1 ++ " " ++ ratStr lat0 ++
    "," ++ ratStr lon1 ++ " " ++ ratStr lat1 ++ "," ++ ratStr lon0 ++ " " ++ ratStr lat1 ++
    "," ++ ratStr lon0 ++ " " ++ ratStr lat0 ++ "))"

/-- Insarmaps section of the translator (source lines 236-246): the
guard tests only `X_FIRST`; inside the branch the five remaining
geocoding anchors are read and parsed with no handler. -/
def insarmapsMeta (pm : SDict) (d : VDict) : Except String VDict :=
  match alookup pm "X_FIRST" with
  | Option.none => Except.ok d
  | some xf =>
  match pyFloat xf with
  | Option.none => Except.error ("ValueError: could not convert string to float: " ++ xf)
  | some lon0 =>
  match getKey pm "Y_FIRST" with
  | Except.error e => Except.error e
  | Except.ok yf =>
  match pyFloat yf with
  | Option.none => Except.error ("ValueError: could not convert string to float: " ++ yf)
  | some lat0 =>
  match getKey pm "X_STEP" with
  | Except.error e => Except.error e
  | Except.ok xs =>
  match pyFloat xs with
  | Option.none => Except.error ("ValueError: could not convert string to float: " ++ xs)
  | some qxs =>
  match getKey pm "WIDTH" with
  | Except.error e => Except.error e
  | Except.ok w =>
  match pyInt w with
  | Option.none => Except.error ("ValueError: invalid literal for int: " ++ w)
  | some nw =>
  match getKey pm "Y_STEP" with
  | Except.error e => Except.error e
  | Except.ok ys =>
  match pyFloat ys with
  | Option.none => Except.error ("ValueError: could not convert string to float: " ++ ys)
  | some qys =>
  match getKey pm "LENGTH" with
  | Except.error e => Except.error e
  | Except.ok ln =>
  match pyInt ln with
  | Option.none => Except.error ("ValueError: invalid literal for int: " ++ ln)
  | some nl =>
  let lon1 := lon0 + qxs * (nw : ℚ)
  let lat1 := lat0 + qys * (nl : ℚ)
  Except.ok (dictInsert d "data_footprint" (Value.str (wktRect lon0 lat0 lon1 lat1)))

/-- `metadata_pysar2unavco(pysar_meta_dict_in, dateList)` (source
lines 119-248), with `datetime.utcnow().isoformat()[0:10]` passed in
as `today`. -/
def metadata_pysar2unavco (m : SDict) (dates : List String) (today : String) :
    Except String VDict :=
  let pm := aliasPass m
  match requiredMeta pm dates today with
  | Except.error e => Except.error e
  | Except.ok d =>
  match recommendedMeta pm d with
  | Except.error e => Except.error e
  | Except.ok d =>
  match insarmapsMeta pm d with
  | Except.error e => Except.error e
  | Except.ok d => Except.ok d

/-- Field extraction from a translation result (used to state claims
about single fields of the final archive metadata). -/
def resultField (m : SDict) (dates : List String) (today k : String) :
    Except String (Option Value) :=
  match metadata_pysar2unavco m dates today with
  | Except.error e => Except.error e
  | Except.ok out => Except.ok (alookup out k)

/-! ## `get_output_filename` (source lines 268-318) -/

/-- `get_output_filename(metadata, update_mode, subset_mode)`.
The source function reads only the metadata mapping and the two flags;
it makes no clock or environment reads, so the embedding takes exactly
those arguments. -/
def get_output_filename (metadata : VDict) (update_mode subset_mode : Bool) :
    Except String String :=
  match getV metadata "mission" with
  | Except.error e => Except.error e
  | Except.ok mv =>
  match asStrE mv with
  | Except.error e => Except.error e
  | Except.ok SAT =>
  match getV metadata "beam_mode" with
  | Except.error e => Except.error e
  | Except.ok bmv =>
  match asStrE bmv with
  | Except.error e => Except.error e
  | Except.ok SW0 =>
  match getV metadata "beam_swath" with
  | Except.error e => Except.error e
  | Except.ok bsv =>
  let SW := if truthyV bsv then SW0 ++ strV bsv else SW0
  match getV metadata "relative_orbit" with
  | Except.error e => Except.error e
  | Except.ok rov =>
  match pyIntVE rov with
  | Except.error e => Except.error e
  | Except.ok ron =>
  let RELORB := padInt 3 ron
  match getV metadata "frame" with
  | Except.error e => Except.error e
  | Except.ok frv =>
  match pyIntVE frv with
  | Except.error e => Except.error e
  | Except.ok fr0 =>
  match (match alookup metadata "first_frame" with
         | some v => pyIntVE v
         | Option.none => Except.ok fr0) with
  | Except.error e => Except.error e
  | Except.ok frame1 =>
  let FRAME0 := padInt 4 frame1
  match (match alookup metadata "last_frame" with
         | some v =>
           match pyIntVE v with
           | Except.error e => Except.error e
           | Except.ok f2 =>
             Except.ok (if f2 ≠ frame1 then FRAME0 ++ "_" ++ padInt 4 f2 else FRAME0)
         | Option.none => Except.ok FRAME0) with
  | Except.error e => Except.error e
  | Except.ok FRAME =>
  match getV metadata "first_date" with
  | Except.error e => Except.error e
  | Except.ok fdv =>
  match asStrE fdv with
  | Except.error e => Except.error e
  | Except.ok fds =>
  match reformatISO fds with
  | Option.none => Except.error ("ValueError: time data does not match format: " ++ fds)
  | some DATE1 =>
  match getV metadata "last_date" with
  | Except.error e => Except.error e
  | Except.ok ldv =>
  match asStrE ldv with
  | Except.error e => Except.error e
  | Except.ok lds =>
  match reformatISO lds with
  | Option.none => Except.error ("ValueError: time data does not match format: " ++ lds)
  | some DATE2p =>
  let DATE2 := if update_mode then "XXXXXXXX" else DATE2p
  let outName := SAT ++ "_" ++ SW ++ "_" ++ RELORB ++ "_" ++ FRAME ++ "_" ++ DATE1 ++
    "_" ++ DATE2 ++ ".he5"
  if subset_mode then
    match getV metadata "Y_FIRST" with
    | Except.error e => Except.error e
    | Except.ok yfv =>
    match pyFloatVE yfv with
    | Except.error e => Except.error e
    | Except.ok lat1 =>
    match getV metadata "X_FIRST" with
    | Except.error e => Except.error e
    | Except.ok xfv =>
    match pyFloatVE xfv with
    | Except.error e => Except.error e
    | Except.ok lon0 =>
    match getV metadata "Y_STEP" with
    | Except.error e => Except.error e
    | Except.ok ysv =>
    match pyFloatVE ysv with
    | Except.error e => Except.error e
    | Except.ok qys =>
    match getV metadata "LENGTH" with
    | Except.error e => Except.error e
    | Except.ok lnv =>
    match pyIntVE lnv with
    | Except.error e => Except.error e
    | Except.ok nl =>
    let lat0 := lat1 + qys * (nl : ℚ)
    match getV metadata "X_STEP" with
    | Except.error e => Except.error e
    | Except.ok xsv =>
    match pyFloatVE xsv with
    | Except.error e => Except.error e
    | Except.ok qxs =>
    match getV metadata "WIDTH" with
    | Except.error e => Except.error e
    | Except.ok wv =>
    match pyIntVE wv with
    | Except.error e => Except.error e
    | Except.ok nw =>
    let lon1 := lon0 + qxs * (nw : ℚ)
    let lat0Str := if lat0 < 0 then "S" ++ padInt 5 (pyRound (|lat0| * 1000))
                   else "N" ++ padInt 5 (pyRound (lat0 * 1000))
    let lat1Str := if lat1 < 0 then "S" ++ padInt 5 (pyRound (|lat1| * 1000))
                   else "N" ++ padInt 5 (pyRound (lat1 * 1000))
    let lon0Str := if lon0 < 0 then "W" ++ padInt 6 (pyRound (|lon0| * 1000))
                   else "E" ++ padInt 6 (pyRound (lon0 * 1000))
    let lon1Str := if lon1 < 0 then "W" ++ padInt 6 (pyRound (|lon1| * 1000))
                   else "E" ++ padInt 6 (pyRound (lon1 * 1000))
    let SUB := "_" ++ lat0Str ++ "_" ++ lat1Str ++ "_" ++ lon0Str ++ "_" ++ lon1Str
    Except.ok ((splitext outName).1 ++ SUB ++ (splitext outName).2)
  else Except.ok outName

/-! ## Dictionary lemmas -/

theorem alookup_dictInsert_self {α : Type} (d : List (String × α)) (k : String) (v : α) :
    alookup (dictInsert d k v) k = some v := by
  induction d with
  | nil => simp [dictInsert, alookup]
  | cons p t ih =>
    by_cases h : p.1 = k
    · simp [dictInsert, h, alookup]
    · simp [dictInsert, h, alookup, ih]

theorem alookup_dictInsert_ne {α : Type} (d : List (String × α)) {k k' : String} (v : α)
    (h : k' ≠ k) : alookup (dictInsert d k v) k' = alookup d k' := by
  induction d with
  | nil => simp [dictInsert, alookup, Ne.symm h]
  | cons p t ih =>
    by_cases hp : p.1 = k
    · simp [dictInsert, hp, alookup, Ne.symm h]
    · by_cases hp' : p.1 = k'
      · simp [dictInsert, hp, alookup, hp', h]
      · simp [dictInsert, hp, alookup, hp', ih]

theorem alookup_isSome_dictInsert {α : Type} (d : List (String × α)) (k k' : String) (v : α)
    (h : (alookup d k').isSome = true) : (alookup (dictInsert d k v) k').isSome = true := by
  by_cases e : k' = k
  · subst e; rw [alookup_dictInsert_self]; rfl
  · rw [alookup_dictInsert_ne _ _ e]; exact h

theorem alookup_addOpt_ne (pm : SDict) (d : VDict) (src dst k : String) (h : k ≠ dst) :
    alookup (addOpt pm d src dst) k = alookup d k := by
  unfold addOpt
  cases alookup pm src <;> simp [alookup_dictInsert_ne _ _ h]

theorem alookup_addOptD_ne (pm : SDict) (d : VDict) (src dst : String) (dflt : Value)
    (k : String) (h : k ≠ dst) : alookup (addOptD pm d src dst dflt) k = alookup d k := by
  unfold addOptD
  cases alookup pm src <;> simp [alookup_dictInsert_ne _ _ h]

theorem alookup_addOptFloat_ne (pm : SDict) (d : VDict) (src dst k : String) (h : k ≠ dst) :
    alookup (addOptFloat pm d src dst) k = alookup d k := by
  unfold addOptFloat
  cases hs : alookup pm src
  · rfl
  · rename_i v
    cases hq : pyFloat v <;> simp [hq, alookup_dictInsert_ne _ _ h]

theorem alookup_flightStep_ne (pm : SDict) (d : VDict) (k : String)
    (h : k ≠ "flight_direction") : alookup (flightStep pm d) k = alookup d k := by
  unfold flightStep
  cases hs : alookup pm "ORBIT_DIRECTION"
  · rfl
  · rename_i v
    cases hd : v.data <;> simp [hd, alookup_dictInsert_ne _ _ h]

theorem alookup_isSome_addOpt (pm : SDict) (d : VDict) (src dst k : String)
    (h : (alookup d k).isSome = true) : (alookup (addOpt pm d src dst) k).isSome = true := by
  unfold addOpt
  cases alookup pm src <;> simp [alookup_isSome_dictInsert _ _ _ _ h, h]

theorem alookup_isSome_addOptD (pm : SDict) (d : VDict) (src dst : String) (dflt : Value)
    (k : String) (h : (alookup d k).isSome = true) :
    (alookup (addOptD pm d src dst dflt) k).isSome = true := by
  unfold addOptD
  cases alookup pm src <;> simp [alookup_isSome_dictInsert _ _ _ _ h]

theorem alookup_isSome_addOptFloat (pm : SDict) (d : VDict) (src dst k : String)
    (h : (alookup d k).isSome = true) :
    (alookup (addOptFloat pm d src dst) k).isSome = true := by
  unfold addOptFloat
  cases hs : alookup pm src
  · exact h
  · rename_i v
    cases hq : pyFloat v <;> simp [hq, alookup_isSome_dictInsert _ _ _ _ h, h]

theorem alookup_isSome_flightStep (pm : SDict) (d : VDict) (k : String)
    (h : (alookup d k).isSome = true) : (alookup (flightStep pm d) k).isSome = true := by
  unfold flightStep
  cases hs : alookup pm "ORBIT_DIRECTION"
  · exact h
  · rename_i v
    cases hd : v.data <;> simp [hd, alookup_isSome_dictInsert _ _ _ _ h, h]

/-! ## Elimination lemmas for the translator stages -/

theorem recommendedMeta_ok_elim {pm : SDict} {d d' : VDict}
    (h : recommendedMeta pm d = Except.ok d') :
    ∃ fr a, frameVal pm = Except.ok fr ∧ alookup pm "ANTENNA_SIDE" = some a ∧
      d' = addOptFloat pm (addOptFloat pm (addOpt pm
            (dictInsert (flightStep pm (addOpt pm (addOpt pm (addOptD pm (addOpt pm
              (dictInsert d "frame" (Value.int fr))
              "atmos_correct_method" "atmos_correct_method")
              "post_processing_method" "post_processing_method" (Value.str "PYSAR"))
              "processing_dem" "processing_dem")
              "unwrap_method" "unwrap_method"))
              "look_direction" (Value.str (if a = "-1" then "R" else "L")))
            "POLARIZATION" "polarization") "PRF" "prf") "WAVELENGTH" "wavelength" := by
  unfold recommendedMeta at h
  cases hfr : frameVal pm with
  | error e => simp [hfr] at h
  | ok fr =>
    simp only [hfr] at h
    cases hant : alookup pm "ANTENNA_SIDE" with
    | none => simp [getKey, hant] at h
    | some a =>
      simp only [getKey, hant] at h
      injection h with h
      exact ⟨fr, a, rfl, rfl, h.symm⟩

theorem insarmapsMeta_ok_elim {pm : SDict} {d d' : VDict}
    (h : insarmapsMeta pm d = Except.ok d') :
    (alookup pm "X_FIRST" = Option.none ∧ d' = d) ∨
    ∃ xf lon0 yf lat0 xs qxs w nw ys qys ln nl,
      alookup pm "X_FIRST" = some xf ∧ pyFloat xf = some lon0 ∧
      alookup pm "Y_FIRST" = some yf ∧ pyFloat yf = some lat0 ∧
      alookup pm "X_STEP" = some xs ∧ pyFloat xs = some qxs ∧
      alookup pm "WIDTH" = some w ∧ pyInt w = some nw ∧
      alookup pm "Y_STEP" = some ys ∧ pyFloat ys = some qys ∧
      alookup pm "LENGTH" = some ln ∧ pyInt ln = some nl ∧
      d' = dictInsert d "data_footprint"
        (Value.str (wktRect lon0 lat0 (lon0 + qxs * (nw : ℚ)) (lat0 + qys * (nl : ℚ)))) := by
  unfold insarmapsMeta at h
  cases hx : alookup pm "X_FIRST" with
  | none =>
    simp only [hx] at h
    injection h with h
    exact Or.inl ⟨rfl, h.symm⟩
  | some xf =>
    simp only [hx] at h
    cases hq : pyFloat xf with
    | none => simp [hq] at h
    | some lon0 =>
      simp only [hq] at h
      cases hyf : alookup pm "Y_FIRST" with
      | none => simp [getKey, hyf] at h
      | some yf =>
        simp only [getKey, hyf] at h
        cases hql : pyFloat yf with
        | none => simp [hql] at h
        | some lat0 =>
          simp only [hql] at h
          cases hxs : alookup pm "X_STEP" with
          | none => simp [getKey, hxs] at h
          | some xs =>
            simp only [getKey, hxs] at h
            cases hqxs : pyFloat xs with
            | none => simp [hqxs] at h
            | some qxs =>
              simp only [hqxs] at h
              cases hw : alookup pm "WIDTH" with
              | none => simp [getKey, hw] at h
              | some w =>
                simp only [getKey, hw] at h
                cases hnw : pyInt w with
                | none => simp [hnw] at h
                | some nw =>
                  simp only [hnw] at h
                  cases hys : alookup pm "Y_STEP" with
                  | none => simp [getKey, hys] at h
                  | some ys =>
                    simp only [getKey, hys] at h
                    cases hqys : pyFloat ys with
                    | none => simp [hqys] at h
                    | some qys =>
                      simp only [hqys] at h
                      cases hln : alookup pm "LENGTH" with
                      | none => simp [getKey, hln] at h
                      | some ln =>
                        simp only [getKey, hln] at h
                        cases hnl : pyInt ln with
                        | none => simp [hnl] at h
                        | some nl =>
                          simp only [hnl] at h
                          injection h with h
                          exact Or.inr ⟨xf, lon0, yf, lat0, xs, qxs, w, nw, ys, qys,
                            ln, nl, rfl, hq, rfl, hql, rfl, hqxs, rfl, hnw, rfl, hqys,
                            rfl, hnl, h.symm⟩

theorem requiredMeta_ok_elim {pm : SDict} {dates : List String} {today : String} {d : VDict}
    (h : requiredMeta pm dates today = Except.ok d) :
    ∃ bm ro ron d0 fd dn ld l1 l3 l4 l2 t1 t3 t4 t2,
      alookup pm "beam_mode" = some bm ∧
      alookup pm "relative_orbit" = some ro ∧ pyInt ro = some ron ∧
      dates.head? = some d0 ∧ reformat8 d0 = some fd ∧
      dates.getLast? = some dn ∧ reformat8 dn = some ld ∧
      alookup pm "LON_REF1" = some l1 ∧ alookup pm "LON_REF3" = some l3 ∧
      alookup pm "LON_REF4" = some l4 ∧ alookup pm "LON_REF2" = some l2 ∧
      alookup pm "LAT_REF1" = some t1 ∧ alookup pm "LAT_REF3" = some t3 ∧
      alookup pm "LAT_REF4" = some t4 ∧ alookup pm "LAT_REF2" = some t2 ∧
      d = dictInsert (dictInsert (dictInsert (dictInsert (dictInsert (dictInsert (dictInsert
            (dictInsert (dictInsert [] "mission" (missionValue pm))
            "beam_mode" (Value.str bm))
            "beam_swath" (Value.int (beamSwathVal pm)))
            "relative_orbit" (Value.int ron))
            "processing_type" (Value.str (processingTypeVal pm)))
            "first_date" (Value.str fd))
            "last_date" (Value.str ld))
            "scene_footprint" (Value.str (footprintWkt l1 l3 l4 l2 t1 t3 t4 t2)))
            "history" (Value.str today) := by
  unfold requiredMeta at h
  cases hbm : alookup pm "beam_mode" with
  | none => simp [getKey, hbm] at h
  | some bm =>
  simp only [getKey, hbm] at h
  cases hro : alookup pm "relative_orbit" with
  | none => simp [getKey, hro] at h
  | some ro =>
  simp only [getKey, hro] at h
  cases hron : pyInt ro with
  | none => simp [hron] at h
  | some ron =>
  simp only [hron] at h
  cases hd0 : dates.head? with
  | none => simp [hd0] at h
  | some d0 =>
  simp only [hd0] at h
  cases hfd : reformat8 d0 with
  | none => simp [hfd] at h
  | some fd =>
  simp only [hfd] at h
  cases hdn : dates.getLast? with
  | none => simp [hdn] at h
  | some dn =>
  simp only [hdn] at h
  cases hld : reformat8 dn with
  | none => simp [hld] at h
  | some ld =>
  simp only [hld] at h
  cases h1 : alookup pm "LON_REF1" with
  | none => simp [getKey, h1] at h
  | some l1 =>
  simp only [getKey, h1] at h
  cases h3 : alookup pm "LON_REF3" with
  | none => simp [getKey, h3] at h
  | some l3 =>
  simp only [getKey, h3] at h
  cases h4 : alookup pm "LON_REF4" with
  | none => simp [getKey, h4] at h
  | some l4 =>
  simp only [getKey, h4] at h
  cases h2 : alookup pm "LON_REF2" with
  | none => simp [getKey, h2] at h
  | some l2 =>
  simp only [getKey, h2] at h
  cases ht1 : alookup pm "LAT_REF1" with
  | none => simp [getKey, ht1] at h
  | some t1 =>
  simp only [getKey, ht1] at h
  cases ht3 : alookup pm "LAT_REF3" with
  | none => simp [getKey, ht3] at h
  | some t3 =>
  simp only [getKey, ht3] at h
  cases ht4 : alookup pm "LAT_REF4" with
  | none => simp [getKey, ht4] at h
  | some t4 =>
  simp only [getKey, ht4] at h
  cases ht2 : alookup pm "LAT_REF2" with
  | none => simp [getKey, ht2] at h
  | some t2 =>
  simp only [getKey, ht2] at h
  injection h with h
  exact ⟨bm, ro, ron, d0, fd, dn, ld, l1, l3, l4, l2, t1, t3, t4, t2,
    rfl, rfl, hron, rfl, hfd, rfl, hld, rfl, rfl, rfl, rfl, rfl, rfl, rfl, rfl, h.symm⟩

theorem metadata_ok_elim {m : SDict} {dates : List String} {today : String} {out : VDict}
    (h : metadata_pysar2unavco m dates today = Except.ok out) :
    ∃ d1 d2, requiredMeta (aliasPass m) dates today = Except.ok d1 ∧
      recommendedMeta (aliasPass m) d1 = Except.ok d2 ∧
      insarmapsMeta (aliasPass m) d2 = Except.ok out := by
  unfold metadata_pysar2unavco at h
  cases h1 : requiredMeta (aliasPass m) dates today with
  | error e => simp [h1] at h
  | ok d1 =>
  simp only [h1] at h
  cases h2 : recommendedMeta (aliasPass m) d1 with
  | error e => simp [h2] at h
  | ok d2 =>
  simp only [h2] at h
  cases h3 : insarmapsMeta (aliasPass m) d2 with
  | error e => simp [h3] at h
  | ok d3 =>
  simp only [h3] at h
  injection h with h
  exact ⟨d1, d2, rfl, h2, h ▸ h3⟩

theorem recommendedMeta_ok_lookup {pm : SDict} {d d' : VDict} {k : String}
    (h : recommendedMeta pm d = Except.ok d')
    (h1 : k ≠ "frame") (h2 : k ≠ "atmos_correct_method")
    (h3 : k ≠ "post_processing_method") (h4 : k ≠ "processing_dem")
    (h5 : k ≠ "unwrap_method") (h6 : k ≠ "flight_direction")
    (h7 : k ≠ "look_direction") (h8 : k ≠ "polarization")
    (h9 : k ≠ "prf") (h10 : k ≠ "wavelength") :
    alookup d' k = alookup d k := by
  obtain ⟨fr, a, -, -, rfl⟩ := recommendedMeta_ok_elim h
  rw [alookup_addOptFloat_ne _ _ _ _ _ h10, alookup_addOptFloat_ne _ _ _ _ _ h9,
    alookup_addOpt_ne _ _ _ _ _ h8, alookup_dictInsert_ne _ _ h7,
    alookup_flightStep_ne _ _ _ h6, alookup_addOpt_ne _ _ _ _ _ h5,
    alookup_addOpt_ne _ _ _ _ _ h4, alookup_addOptD_ne _ _ _ _ _ _ h3,
    alookup_addOpt_ne _ _ _ _ _ h2, alookup_dictInsert_ne _ _ h1]

theorem recommendedMeta_ok_isSome {pm : SDict} {d d' : VDict} {k : String}
    (h : recommendedMeta pm d = Except.ok d') (hk : (alookup d k).isSome = true) :
    (alookup d' k).isSome = true := by
  obtain ⟨fr, a, -, -, rfl⟩ := recommendedMeta_ok_elim h
  apply alookup_isSome_addOptFloat
  apply alookup_isSome_addOptFloat
  apply alookup_isSome_addOpt
  apply alookup_isSome_dictInsert
  apply alookup_isSome_flightStep
  apply alookup_isSome_addOpt
  apply alookup_isSome_addOpt
  apply alookup_isSome_addOptD
  apply alookup_isSome_addOpt
  apply alookup_isSome_dictInsert
  exact hk

theorem insarmapsMeta_ok_lookup {pm : SDict} {d d' : VDict} {k : String}
    (h : insarmapsMeta pm d = Except.ok d') (hk : k ≠ "data_footprint") :
    alookup d' k = alookup d k := by
  rcases insarmapsMeta_ok_elim h with ⟨-, rfl⟩ |
    ⟨xf, lon0, yf, lat0, xs, qxs, w, nw, ys, qys, ln, nl,
      -, -, -, -, -, -, -, -, -, -, -, -, rfl⟩
  · rfl
  · exact alookup_dictInsert_ne _ _ hk

theorem insarmapsMeta_ok_isSome {pm : SDict} {d d' : VDict} {k : String}
    (h : insarmapsMeta pm d = Except.ok d') (hk : (alookup d k).isSome = true) :
    (alookup d' k).isSome = true := by
  rcases insarmapsMeta_ok_elim h with ⟨-, rfl⟩ |
    ⟨xf, lon0, yf, lat0, xs, qxs, w, nw, ys, qys, ln, nl,
      -, -, -, -, -, -, -, -, -, -, -, -, rfl⟩
  · exact hk
  · exact alookup_isSome_dictInsert _ _ _ _ hk

/-- `Except` success test. -/
def isOkE {α : Type} : Except String α → Bool
  | Except.ok _ => true
  | Except.error _ => false

/-- The eight corner reference keys read by the scene-footprint code. -/
def cornerKeys : List String :=
  ["LON_REF1", "LON_REF2", "LON_REF3", "LON_REF4",
   "LAT_REF1", "LAT_REF2", "LAT_REF3", "LAT_REF4"]

/-- C10: absence of any of the eight corner keys `LON_REF1..4` /
`LAT_REF1..4` from the aliased source map makes `metadata_pysar2unavco`
terminate with a propagating error: the footprint construction reads
all eight keys with no fallback, and every earlier failure also
propagates, so no successful translation exists for such a map. -/
theorem C10_missing_corner_key_fatal :
    ∀ (m : SDict) (dates : List String) (today k : String), k ∈ cornerKeys →
      alookup (aliasPass m) k = Option.none →
      isOkE (metadata_pysar2unavco m dates today) = false := by
  intro m dates today k hk hnone
  cases hres : metadata_pysar2unavco m dates today with
  | error e => rfl
  | ok out =>
    exfalso
    obtain ⟨d1, d2, hreq, -, -⟩ := metadata_ok_elim hres
    obtain ⟨bm, ro, ron, d0, fd, dn, ld, L1, L3, L4, L2, T1, T3, T4, T2,
      -, -, -, -, -, -, -, e1, e3, e4, e2, f1, f3, f4, f2, -⟩ :=
      requiredMeta_ok_elim hreq
    simp only [cornerKeys, List.mem_cons, List.not_mem_nil, or_false] at hk
    rcases hk with rfl | rfl | rfl | rfl | rfl | rfl | rfl | rfl <;> simp_all

/-- C10 witness: the empty source map is missing `LON_REF1`, so the
translation fails on it. -/
theorem C10_missing_corner_key_fatal_witness :
    isOkE (metadata_pysar2unavco [] ["20150101", "20181231"] "2018-06-01") = false :=
  C10_missing_corner_key_fatal [] ["20150101", "20181231"] "2018-06-01" "LON_REF1"
    (by decide) rfl

/-- C8: whenever `metadata_pysar2unavco` terminates without a hard
error, the returned archive metadata contains all eight required keys
`mission`, `beam_mode`, `beam_swath`, `relative_orbit`, `first_date`,
`last_date`, `scene_footprint`, `history` (the mission value possibly
being the null value). -/
theorem C8_required_keys_present :
    ∀ (m : SDict) (dates : List String) (today : String) (out : VDict),
      metadata_pysar2unavco m dates today = Except.ok out →
      dmem out "mission" = true ∧ dmem out "beam_mode" = true ∧
      dmem out "beam_swath" = true ∧ dmem out "relative_orbit" = true ∧
      dmem out "first_date" = true ∧ dmem out "last_date" = true ∧
      dmem out "scene_footprint" = true ∧ dmem out "history" = true := by
  intro m dates today out h
  obtain ⟨d1, d2, hreq, hrec, hins⟩ := metadata_ok_elim h
  obtain ⟨bm, ro, ron, d0, fd, dn, ld, L1, L3, L4, L2, T1, T3, T4, T2,
    -, -, -, -, -, -, -, -, -, -, -, -, -, -, -, hd1⟩ := requiredMeta_ok_elim hreq
  subst hd1
  refine ⟨?_, ?_, ?_, ?_, ?_, ?_, ?_, ?_⟩ <;>
  · unfold dmem
    apply insarmapsMeta_ok_isSome hins
    apply recommendedMeta_ok_isSome hrec
    simp [alookup_dictInsert_self, alookup_dictInsert_ne]

/-! ## Concrete fixtures used by witnesses and counterexamples -/

/-- Corner reference values shared by the concrete runs. -/
def cornerVals : SDict :=
  [("LON_REF1", "130.1"), ("LON_REF2", "131.1"), ("LON_REF3", "130.2"), ("LON_REF4", "131.2"),
   ("LAT_REF1", "32.1"), ("LAT_REF2", "32.2"), ("LAT_REF3", "31.1"), ("LAT_REF4", "31.2")]

/-- A complete, well-formed source map. -/
def mFull : SDict :=
  [("mission", "Sentinel-1"), ("beam_mode", "IW"), ("beam_swath", "1"),
   ("relative_orbit", "5"), ("ANTENNA_SIDE", "-1")] ++ cornerVals

/-- A complete source map with no `beam_swath` key. -/
def mNoSwath : SDict :=
  [("mission", "Sentinel-1"), ("beam_mode", "IW"),
   ("relative_orbit", "5"), ("ANTENNA_SIDE", "-1")] ++ cornerVals

def datesEx : List String := ["20150101", "20181231"]

def todayEx : String := "2018-06-01"

/-- C8 witness: a complete concrete run, through
`C8_required_keys_present`. -/
theorem C8_required_keys_present_witness :
    ∃ out, metadata_pysar2unavco mFull datesEx todayEx = Except.ok out ∧
      (dmem out "mission" = true ∧ dmem out "beam_mode" = true ∧
       dmem out "beam_swath" = true ∧ dmem out "relative_orbit" = true ∧
       dmem out "first_date" = true ∧ dmem out "last_date" = true ∧
       dmem out "scene_footprint" = true ∧ dmem out "history" = true) := by
  refine ⟨_, rfl, C8_required_keys_present mFull datesEx todayEx _ rfl⟩

/-- C3: missing `relative_orbit` (after aliasing) is a hard,
propagating error of `metadata_pysar2unavco` — no default is ever
substituted; by contrast, when `beam_swath` is absent or does not
parse as an integer, a successful translation carries `beam_swath = 0`
(the failure is swallowed and translation continues). -/
theorem C3_relorb_fatal_beamswath_fallback :
    (∀ (m : SDict) (dates : List String) (today : String),
      alookup (aliasPass m) "relative_orbit" = Option.none →
      isOkE (metadata_pysar2unavco m dates today) = false) ∧
    (∀ (m : SDict) (dates : List String) (today : String) (out : VDict),
      metadata_pysar2unavco m dates today = Except.ok out →
      (alookup (aliasPass m) "beam_swath" = Option.none ∨
        ∃ s, alookup (aliasPass m) "beam_swath" = some s ∧ pyInt s = Option.none) →
      alookup out "beam_swath" = some (Value.int 0)) := by
  constructor
  · intro m dates today hnone
    cases hres : metadata_pysar2unavco m dates today with
    | error e => rfl
    | ok out =>
      exfalso
      obtain ⟨d1, d2, hreq, -, -⟩ := metadata_ok_elim hres
      obtain ⟨bm, ro, ron, d0, fd, dn, ld, L1, L3, L4, L2, T1, T3, T4, T2,
        -, hro, -, -, -, -, -, -, -, -, -, -, -, -, -, -⟩ := requiredMeta_ok_elim hreq
      rw [hnone] at hro
      exact Option.noConfusion hro
  · intro m dates today out h hbs
    obtain ⟨d1, d2, hreq, hrec, hins⟩ := metadata_ok_elim h
    obtain ⟨bm, ro, ron, d0, fd, dn, ld, L1, L3, L4, L2, T1, T3, T4, T2,
      -, -, -, -, -, -, -, -, -, -, -, -, -, -, -, hd1⟩ := requiredMeta_ok_elim hreq
    subst hd1
    have hbsv : beamSwathVal (aliasPass m) = 0 := by
      unfold beamSwathVal
      rcases hbs with hn | ⟨s, hs, hps⟩
      · rw [hn]
      · rw [hs]; simp [hps]
    rw [insarmapsMeta_ok_lookup hins (by decide),
      recommendedMeta_ok_lookup hrec (by decide) (by decide) (by decide) (by decide)
        (by decide) (by decide) (by decide) (by decide) (by decide) (by decide)]
    simp [alookup_dictInsert_self, alookup_dictInsert_ne, hbsv]

/-- C3 witness: a concrete map without `beam_swath` translates
successfully and carries `beam_swath = 0`, through
`C3_relorb_fatal_beamswath_fallback`; and a concrete map without
`relative_orbit` fails. -/
theorem C3_relorb_fatal_beamswath_fallback_witness :
    isOkE (metadata_pysar2unavco [("beam_mode", "IW")] datesEx todayEx) = false ∧
    ∃ out, metadata_pysar2unavco mNoSwath datesEx todayEx = Except.ok out ∧
      alookup out "beam_swath" = some (Value.int 0) := by
  constructor
  · exact C3_relorb_fatal_beamswath_fallback.1 [("beam_mode", "IW")] datesEx todayEx rfl
  · exact ⟨_, rfl, C3_relorb_fatal_beamswath_fallback.2 mNoSwath datesEx todayEx _ rfl
      (Or.inl rfl)⟩

/-- C6: for every source map whose aliased form carries the eight
corner keys, a successful translation yields the scene footprint WKT
ring whose five vertices take the corners in the order 1, 3, 4, 2 and
then 1 again. -/
theorem C6_scene_footprint_corner_order :
    ∀ (m : SDict) (dates : List String) (today : String) (out : VDict)
      (l1 l2 l3 l4 t1 t2 t3 t4 : String),
      metadata_pysar2unavco m dates today = Except.ok out →
      alookup (aliasPass m) "LON_REF1" = some l1 →
      alookup (aliasPass m) "LON_REF2" = some l2 →
      alookup (aliasPass m) "LON_REF3" = some l3 →
      alookup (aliasPass m) "LON_REF4" = some l4 →
      alookup (aliasPass m) "LAT_REF1" = some t1 →
      alookup (aliasPass m) "LAT_REF2" = some t2 →
      alookup (aliasPass m) "LAT_REF3" = some t3 →
      alookup (aliasPass m) "LAT_REF4" = some t4 →
      alookup out "scene_footprint" =
        some (Value.str ("POLYGON((" ++ l1 ++ " " ++ t1 ++ "," ++ l3 ++ " " ++ t3 ++
          "," ++ l4 ++ " " ++ t4 ++ "," ++ l2 ++ " " ++ t2 ++ "," ++ l1 ++ " " ++ t1 ++
          "))")) := by
  intro m dates today out l1 l2 l3 l4 t1 t2 t3 t4 h g1 g2 g3 g4 k1 k2 k3 k4
  obtain ⟨d1, d2, hreq, hrec, hins⟩ := metadata_ok_elim h
  obtain ⟨bm, ro, ron, d0, fd, dn, ld, L1, L3, L4, L2, T1, T3, T4, T2,
    -, -, -, -, -, -, -, e1, e3, e4, e2, f1, f3, f4, f2, hd1⟩ := requiredMeta_ok_elim hreq
  subst hd1
  obtain rfl : L1 = l1 := Option.some.inj (e1 ▸ g1)
  obtain rfl : L2 = l2 := Option.some.inj (e2 ▸ g2)
  obtain rfl : L3 = l3 := Option.some.inj (e3 ▸ g3)
  obtain rfl : L4 = l4 := Option.some.inj (e4 ▸ g4)
  obtain rfl : T1 = t1 := Option.some.inj (f1 ▸ k1)
  obtain rfl : T2 = t2 := Option.some.inj (f2 ▸ k2)
  obtain rfl : T3 = t3 := Option.some.inj (f3 ▸ k3)
  obtain rfl : T4 = t4 := Option.some.inj (f4 ▸ k4)
  rw [insarmapsMeta_ok_lookup hins (by decide),
    recommendedMeta_ok_lookup hrec (by decide) (by decide) (by decide) (by decide)
      (by decide) (by decide) (by decide) (by decide) (by decide) (by decide)]
  simp [alookup_dictInsert_self, alookup_dictInsert_ne, footprintWkt]

/-- C6 witness: the concrete full map, through
`C6_scene_footprint_corner_order`. -/
theorem C6_scene_footprint_corner_order_witness :
    ∃ out, metadata_pysar2unavco mFull datesEx todayEx = Except.ok out ∧
      alookup out "scene_footprint" = some (Value.str
        "POLYGON((130.1 32.1,130.2 31.1,131.2 31.2,131.1 32.2,130.1 32.1))") := by
  refine ⟨_, rfl, ?_⟩
  have h := C6_scene_footprint_corner_order mFull datesEx todayEx _
    "130.1" "131.1" "130.2" "131.2" "32.1" "32.2" "31.1" "31.2"
    rfl rfl rfl rfl rfl rfl rfl rfl rfl
  simpa using h

theorem wktRect_ne_empty (a b c d : ℚ) : wktRect a b c d ≠ "" := by
  intro h
  have h2 := congrArg String.length h
  unfold wktRect at h2
  simp only [String.length_append] at h2
  have h9 : ("POLYGON((" : String).length = 9 := rfl
  have h0 : ("" : String).length = 0 := rfl
  rw [h9, h0] at h2
  omega

/-- C9 counterexample: a source map carrying `X_FIRST` but not
`Y_FIRST` (with every other required field present): the claim says
the `data_footprint` key is omitted and translation completes
normally; the code's guard tests only `X_FIRST`, and the uncaught read
of `Y_FIRST` makes the whole translation fail. -/
theorem C9_data_footprint_counterexample :
    metadata_pysar2unavco (mFull ++ [("X_FIRST", "130.5")]) datesEx todayEx =
      Except.error "KeyError: Y_FIRST" := by rfl

/-- The five geocoding anchors read inside the `X_FIRST` branch of the
data-footprint section, with no handler. -/
def anchorKeys : List String := ["Y_FIRST", "X_STEP", "Y_STEP", "WIDTH", "LENGTH"]

/-- The anchors parsed with `float()` inside the `X_FIRST` branch. -/
def floatAnchorKeys : List String := ["Y_FIRST", "X_STEP", "Y_STEP"]

/-- The anchors parsed with `int()` inside the `X_FIRST` branch. -/
def intAnchorKeys : List String := ["WIDTH", "LENGTH"]

/-- C9 amended: the guard of the data-footprint section tests only
`X_FIRST`.  (1) When `X_FIRST` is absent from the aliased source map,
a successful translation carries no `data_footprint` key; when
`X_FIRST` is present, a successful translation carries a nonempty
rectangular WKT `data_footprint` whose origin `(lon0, lat0)` is the
parsed `X_FIRST`/`Y_FIRST` pair and whose opposite corner adds the
parsed `X_STEP`·`WIDTH` and `Y_STEP`·`LENGTH` (corners ll, lr, ur,
ul, ll).  (2) When `X_FIRST` is present and any one of the five
anchors `Y_FIRST`/`X_STEP`/`Y_STEP`/`WIDTH`/`LENGTH` is missing,
translation terminates with a hard error.  (3)-(5) Likewise when
`X_FIRST` itself, one of the `float()`-parsed anchors, or one of the
`int()`-parsed anchors is present but unparsable. -/
theorem C9_data_footprint_amended :
    (∀ (m : SDict) (dates : List String) (today : String) (out : VDict),
      metadata_pysar2unavco m dates today = Except.ok out →
      (alookup (aliasPass m) "X_FIRST" = Option.none →
        alookup out "data_footprint" = Option.none) ∧
      (∀ xf, alookup (aliasPass m) "X_FIRST" = some xf →
        ∃ yf xs ys w ln, ∃ lon0 lat0 qxs qys : ℚ, ∃ nw nl : Int,
          pyFloat xf = some lon0 ∧
          alookup (aliasPass m) "Y_FIRST" = some yf ∧ pyFloat yf = some lat0 ∧
          alookup (aliasPass m) "X_STEP" = some xs ∧ pyFloat xs = some qxs ∧
          alookup (aliasPass m) "WIDTH" = some w ∧ pyInt w = some nw ∧
          alookup (aliasPass m) "Y_STEP" = some ys ∧ pyFloat ys = some qys ∧
          alookup (aliasPass m) "LENGTH" = some ln ∧ pyInt ln = some nl ∧
          alookup out "data_footprint" = some (Value.str
            (wktRect lon0 lat0 (lon0 + qxs * (nw : ℚ)) (lat0 + qys * (nl : ℚ)))) ∧
          wktRect lon0 lat0 (lon0 + qxs * (nw : ℚ)) (lat0 + qys * (nl : ℚ)) ≠ "")) ∧
    (∀ (m : SDict) (dates : List String) (today k : String), k ∈ anchorKeys →
      (alookup (aliasPass m) "X_FIRST").isSome = true →
      alookup (aliasPass m) k = Option.none →
      isOkE (metadata_pysar2unavco m dates today) = false) ∧
    (∀ (m : SDict) (dates : List String) (today xf : String),
      alookup (aliasPass m) "X_FIRST" = some xf → pyFloat xf = Option.none →
      isOkE (metadata_pysar2unavco m dates today) = false) ∧
    (∀ (m : SDict) (dates : List String) (today k v : String), k ∈ floatAnchorKeys →
      (alookup (aliasPass m) "X_FIRST").isSome = true →
      alookup (aliasPass m) k = some v → pyFloat v = Option.none →
      isOkE (metadata_pysar2unavco m dates today) = false) ∧
    (∀ (m : SDict) (dates : List String) (today k v : String), k ∈ intAnchorKeys →
      (alookup (aliasPass m) "X_FIRST").isSome = true →
      alookup (aliasPass m) k = some v → pyInt v = Option.none →
      isOkE (metadata_pysar2unavco m dates today) = false) := by
  refine ⟨?_, ?_, ?_, ?_, ?_⟩
  · intro m dates today out h
    obtain ⟨d1, d2, hreq, hrec, hins⟩ := metadata_ok_elim h
    obtain ⟨bm, ro, ron, d0, fd, dn, ld, L1, L3, L4, L2, T1, T3, T4, T2,
      -, -, -, -, -, -, -, -, -, -, -, -, -, -, -, hd1⟩ := requiredMeta_ok_elim hreq
    subst hd1
    constructor
    · intro hx
      rcases insarmapsMeta_ok_elim hins with ⟨-, rfl⟩ |
        ⟨xf, lon0, yf, lat0, xs, qxs, w, nw, ys, qys, ln, nl,
          hx', -, -, -, -, -, -, -, -, -, -, -, -⟩
      · rw [recommendedMeta_ok_lookup hrec (by decide) (by decide) (by decide) (by decide)
          (by decide) (by decide) (by decide) (by decide) (by decide) (by decide)]
        simp [alookup_dictInsert_ne, alookup]
      · rw [hx] at hx'
        exact Option.noConfusion hx'
    · intro xf hx
      rcases insarmapsMeta_ok_elim hins with ⟨hnone, rfl⟩ |
        ⟨xf', lon0, yf, lat0, xs, qxs, w, nw, ys, qys, ln, nl,
          hx', hpf, hyf, hql, hxst, hqxs, hw, hnw, hyst, hqys, hln, hnl, rfl⟩
      · rw [hnone] at hx
        exact Option.noConfusion hx
      · rw [hx'] at hx
        injection hx with hx
        subst hx
        exact ⟨yf, xs, ys, w, ln, lon0, lat0, qxs, qys, nw, nl,
          hpf, hyf, hql, hxst, hqxs, hw, hnw, hyst, hqys, hln, hnl,
          by rw [alookup_dictInsert_self], wktRect_ne_empty _ _ _ _⟩
  · intro m dates today k hk hxs hnone
    cases hres : metadata_pysar2unavco m dates today with
    | error e => rfl
    | ok out =>
      exfalso
      obtain ⟨d1, d2, -, -, hins⟩ := metadata_ok_elim hres
      rcases insarmapsMeta_ok_elim hins with ⟨hn, -⟩ |
        ⟨xf, lon0, yf, lat0, xs, qxs, w, nw, ys, qys, ln, nl,
          -, -, hyf, -, hxst, -, hw, -, hyst, -, hln, -, -⟩
      · rw [hn] at hxs
        exact Bool.noConfusion hxs
      · simp only [anchorKeys, List.mem_cons, List.not_mem_nil, or_false] at hk
        rcases hk with rfl | rfl | rfl | rfl | rfl <;> simp_all
  · intro m dates today xf hx hpx
    cases hres : metadata_pysar2unavco m dates today with
    | error e => rfl
    | ok out =>
      exfalso
      obtain ⟨d1, d2, -, -, hins⟩ := metadata_ok_elim hres
      rcases insarmapsMeta_ok_elim hins with ⟨hn, -⟩ |
        ⟨xf', lon0, yf, lat0, xs, qxs, w, nw, ys, qys, ln, nl,
          hx', hpf, -, -, -, -, -, -, -, -, -, -, -⟩
      · rw [hn] at hx
        exact Option.noConfusion hx
      · rw [hx'] at hx
        injection hx with hx
        subst hx
        rw [hpx] at hpf
        exact Option.noConfusion hpf
  · intro m dates today k v hk hxs hkv hpv
    cases hres : metadata_pysar2unavco m dates today with
    | error e => rfl
    | ok out =>
      exfalso
      obtain ⟨d1, d2, -, -, hins⟩ := metadata_ok_elim hres
      rcases insarmapsMeta_ok_elim hins with ⟨hn, -⟩ |
        ⟨xf, lon0, yf, lat0, xs, qxs, w, nw, ys, qys, ln, nl,
          -, -, hyf, hql, hxst, hqxs, -, -, hyst, hqys, -, -, -⟩
      · rw [hn] at hxs
        exact Bool.noConfusion hxs
      · simp only [floatAnchorKeys, List.mem_cons, List.not_mem_nil, or_false] at hk
        rcases hk with rfl | rfl | rfl <;> simp_all
  · intro m dates today k v hk hxs hkv hpv
    cases hres : metadata_pysar2unavco m dates today with
    | error e => rfl
    | ok out =>
      exfalso
      obtain ⟨d1, d2, -, -, hins⟩ := metadata_ok_elim hres
      rcases insarmapsMeta_ok_elim hins with ⟨hn, -⟩ |
        ⟨xf, lon0, yf, lat0, xs, qxs, w, nw, ys, qys, ln, nl,
          -, -, -, -, -, -, hw, hnw, -, -, hln, hnl, -⟩
      · rw [hn] at hxs
        exact Bool.noConfusion hxs
      · simp only [intAnchorKeys, List.mem_cons, List.not_mem_nil, or_false] at hk
        rcases hk with rfl | rfl <;> simp_all

/-- A complete source map carrying all six geocoding anchors. -/
def mAnchors : SDict :=
  mFull ++ [("X_FIRST", "130.5"), ("Y_FIRST", "32.1"), ("X_STEP", "0.001"),
    ("Y_STEP", "-0.001"), ("WIDTH", "600"), ("LENGTH", "400")]

/-- A complete source map whose `X_STEP` anchor does not parse. -/
def mBadStep : SDict :=
  mFull ++ [("X_FIRST", "130.5"), ("Y_FIRST", "32.1"), ("X_STEP", "abc"),
    ("Y_STEP", "-0.001"), ("WIDTH", "600"), ("LENGTH", "400")]

unseal Rat.add Rat.mul Rat.inv Rat.sub in
/-- C9 witness: the amended behaviour exercised at concrete inputs,
through `C9_data_footprint_amended`: a map without `X_FIRST` completes
with no `data_footprint` key; a map with all six anchors completes
with the key present; a map with `X_FIRST` but without `Y_FIRST`
fails; and a map whose `X_STEP` does not parse fails. -/
theorem C9_data_footprint_amended_witness :
    (∃ out, metadata_pysar2unavco mFull datesEx todayEx = Except.ok out ∧
      alookup out "data_footprint" = Option.none) ∧
    (∃ out, metadata_pysar2unavco mAnchors datesEx todayEx = Except.ok out ∧
      (alookup out "data_footprint").isSome = true) ∧
    isOkE (metadata_pysar2unavco (mFull ++ [("X_FIRST", "130.5")]) datesEx todayEx)
      = false ∧
    isOkE (metadata_pysar2unavco mBadStep datesEx todayEx) = false := by
  refine ⟨⟨_, rfl, (C9_data_footprint_amended.1 mFull datesEx todayEx _ rfl).1 rfl⟩,
    ⟨_, rfl, ?_⟩, ?_, ?_⟩
  · obtain ⟨yf, xs, ys, w, ln, lon0, lat0, qxs, qys, nw, nl,
      -, -, -, -, -, -, -, -, -, -, -, hdf, -⟩ :=
      (C9_data_footprint_amended.1 mAnchors datesEx todayEx _ rfl).2 "130.5" rfl
    rw [hdf]
    rfl
  · exact C9_data_footprint_amended.2.1 (mFull ++ [("X_FIRST", "130.5")]) datesEx todayEx
      "Y_FIRST" (by decide) (by decide) (by decide)
  · exact C9_data_footprint_amended.2.2.2.1 mBadStep datesEx todayEx "X_STEP" "abc"
      (by decide) (by decide) (by decide) (by decide)

/-- Construction lemma: a translation whose required lookups are pinned
succeeds, and its `relative_orbit` field is the parsed integer. -/
theorem translate_ok_relorb (m : SDict) (dates : List String) (today : String)
    (bm ro d0 fd dn ld l1 l3 l4 l2 t1 t3 t4 t2 a : String) (ron fr : Int)
    (hbm : alookup (aliasPass m) "beam_mode" = some bm)
    (hro : alookup (aliasPass m) "relative_orbit" = some ro)
    (hron : pyInt ro = some ron)
    (hd0 : dates.head? = some d0) (hfd : reformat8 d0 = some fd)
    (hdn : dates.getLast? = some dn) (hld : reformat8 dn = some ld)
    (e1 : alookup (aliasPass m) "LON_REF1" = some l1)
    (e3 : alookup (aliasPass m) "LON_REF3" = some l3)
    (e4 : alookup (aliasPass m) "LON_REF4" = some l4)
    (e2 : alookup (aliasPass m) "LON_REF2" = some l2)
    (f1 : alookup (aliasPass m) "LAT_REF1" = some t1)
    (f3 : alookup (aliasPass m) "LAT_REF3" = some t3)
    (f4 : alookup (aliasPass m) "LAT_REF4" = some t4)
    (f2 : alookup (aliasPass m) "LAT_REF2" = some t2)
    (hfr : frameVal (aliasPass m) = Except.ok fr)
    (hant : alookup (aliasPass m) "ANTENNA_SIDE" = some a)
    (hx : alookup (aliasPass m) "X_FIRST" = Option.none) :
    ∃ out, metadata_pysar2unavco m dates today = Except.ok out ∧
      alookup out "relative_orbit" = some (Value.int ron) := by
  unfold metadata_pysar2unavco requiredMeta recommendedMeta insarmapsMeta
  simp only [getKey, hbm, hro, hron, hd0, hfd, hdn, hld, e1, e3, e4, e2, f1, f3, f4, f2,
    hfr, hant, hx]
  refine ⟨_, rfl, ?_⟩
  rw [alookup_addOptFloat_ne _ _ _ _ _ (by decide), alookup_addOptFloat_ne _ _ _ _ _ (by decide),
    alookup_addOpt_ne _ _ _ _ _ (by decide), alookup_dictInsert_ne _ _ (by decide),
    alookup_flightStep_ne _ _ _ (by decide), alookup_addOpt_ne _ _ _ _ _ (by decide),
    alookup_addOpt_ne _ _ _ _ _ (by decide), alookup_addOptD_ne _ _ _ _ _ _ (by decide),
    alookup_addOpt_ne _ _ _ _ _ (by decide), alookup_dictInsert_ne _ _ (by decide)]
  simp [alookup_dictInsert_self, alookup_dictInsert_ne]

/-- A source map holding the plain `relative_orbit` key before the
`hdfEos5.relative_orbit` override key. -/
def mOrbBaseFirst (a b : String) : SDict :=
  [("relative_orbit", a), ("hdfEos5.relative_orbit", b),
   ("mission", "Sentinel-1"), ("beam_mode", "IW"), ("beam_swath", "1"),
   ("ANTENNA_SIDE", "-1")] ++ cornerVals

/-- A source map holding the `hdfEos5.relative_orbit` override key
before the plain `relative_orbit` key. -/
def mOrbOverrideFirst (a b : String) : SDict :=
  [("hdfEos5.relative_orbit", b), ("relative_orbit", a),
   ("mission", "Sentinel-1"), ("beam_mode", "IW"), ("beam_swath", "1"),
   ("ANTENNA_SIDE", "-1")] ++ cornerVals

/-- C2 counterexample: a source map carrying the override key
`hdfEos5.relative_orbit` (value 99) *before* the base key
`relative_orbit` (value 1).  The claim says the override value must
reach the final archive metadata for any relative order of the two
keys; the code's verbatim copy of the later base key overwrites the
previously-inserted alias, so the final `relative_orbit` is 1, not
99. -/
theorem C2_alias_precedence_counterexample :
    resultField (mOrbOverrideFirst "1" "99") datesEx todayEx "relative_orbit" =
      Except.ok (some (Value.int 1)) ∧ Value.int 1 ≠ Value.int 99 := by
  constructor
  · rfl
  · decide

set_option maxHeartbeats 4000000 in
/-- C2 amended: the override key's value reaches the final archive
metadata exactly when the override key is iterated *after* the base
key; when the base key comes second, its verbatim copy overwrites the
alias and the base value wins. -/
theorem C2_alias_precedence_amended :
    (∀ a b n, pyInt b = some n →
      resultField (mOrbBaseFirst a b) datesEx todayEx "relative_orbit" =
        Except.ok (some (Value.int n))) ∧
    (∀ a b n, pyInt a = some n →
      resultField (mOrbOverrideFirst a b) datesEx todayEx "relative_orbit" =
        Except.ok (some (Value.int n))) := by
  constructor
  · intro a b n hn
    have halias : aliasPass (mOrbBaseFirst a b) =
        ("relative_orbit", b) :: ("hdfEos5.relative_orbit", b) ::
          ([("mission", "Sentinel-1"), ("beam_mode", "IW"), ("beam_swath", "1"),
            ("ANTENNA_SIDE", "-1")] ++ cornerVals) := rfl
    obtain ⟨out, hout, hfield⟩ := translate_ok_relorb (mOrbBaseFirst a b) datesEx todayEx
      "IW" b "20150101" "2015-01-01" "20181231" "2018-12-31"
      "130.1" "130.2" "131.2" "131.1" "32.1" "31.1" "31.2" "32.2" "-1" n 0
      (by rw [halias]; rfl) (by rw [halias]; rfl) hn rfl rfl rfl rfl
      (by rw [halias]; rfl) (by rw [halias]; rfl) (by rw [halias]; rfl) (by rw [halias]; rfl)
      (by rw [halias]; rfl) (by rw [halias]; rfl) (by rw [halias]; rfl) (by rw [halias]; rfl)
      (by rw [halias]; rfl) (by rw [halias]; rfl) (by rw [halias]; rfl)
    unfold resultField
    rw [hout]
    simp [hfield]
  · intro a b n hn
    have halias : aliasPass (mOrbOverrideFirst a b) =
        ("hdfEos5.relative_orbit", b) :: ("relative_orbit", a) ::
          ([("mission", "Sentinel-1"), ("beam_mode", "IW"), ("beam_swath", "1"),
            ("ANTENNA_SIDE", "-1")] ++ cornerVals) := rfl
    obtain ⟨out, hout, hfield⟩ := translate_ok_relorb (mOrbOverrideFirst a b) datesEx todayEx
      "IW" a "20150101" "2015-01-01" "20181231" "2018-12-31"
      "130.1" "130.2" "131.2" "131.1" "32.1" "31.1" "31.2" "32.2" "-1" n 0
      (by rw [halias]; rfl) (by rw [halias]; rfl) hn rfl rfl rfl rfl
      (by rw [halias]; rfl) (by rw [halias]; rfl) (by rw [halias]; rfl) (by rw [halias]; rfl)
      (by rw [halias]; rfl) (by rw [halias]; rfl) (by rw [halias]; rfl) (by rw [halias]; rfl)
      (by rw [halias]; rfl) (by rw [halias]; rfl) (by rw [halias]; rfl)
    unfold resultField
    rw [hout]
    simp [hfield]

/-- C2 witness: the amended precedence at concrete values, through
`C2_alias_precedence_amended`: with the base key first the override
value 99 wins; with the override key first the base value 1 wins. -/
theorem C2_alias_precedence_amended_witness :
    resultField (mOrbBaseFirst "1" "99") datesEx todayEx "relative_orbit" =
      Except.ok (some (Value.int 99)) ∧
    resultField (mOrbOverrideFirst "1" "99") datesEx todayEx "relative_orbit" =
      Except.ok (some (Value.int 1)) := by
  constructor
  · exact C2_alias_precedence_amended.1 "1" "99" 99 (by decide)
  · exact C2_alias_precedence_amended.2 "1" "99" 1 (by decide)

/-- C5: `get_output_filename` is deterministic.  The embedding takes
exactly the inputs the source reads — the metadata mapping and the two
mode flags; there is no clock or environment read in the function, so
two invocations on equal inputs are the same value by definition.  In
addition, the `history` metadata field (the only wall-clock-derived
field of the archive metadata) has no influence: overwriting it with
any value leaves the synthesized filename unchanged. -/
theorem C5_filename_deterministic :
    ∀ (m : VDict) (u s : Bool) (v : Value),
      get_output_filename (dictInsert m "history" v) u s = get_output_filename m u s := by
  intro m u s v
  unfold get_output_filename
  simp only [getV, alookup_dictInsert_ne _ _ (by decide : ("mission" : String) ≠ "history"),
    alookup_dictInsert_ne _ _ (by decide : ("beam_mode" : String) ≠ "history"),
    alookup_dictInsert_ne _ _ (by decide : ("beam_swath" : String) ≠ "history"),
    alookup_dictInsert_ne _ _ (by decide : ("relative_orbit" : String) ≠ "history"),
    alookup_dictInsert_ne _ _ (by decide : ("frame" : String) ≠ "history"),
    alookup_dictInsert_ne _ _ (by decide : ("first_frame" : String) ≠ "history"),
    alookup_dictInsert_ne _ _ (by decide : ("last_frame" : String) ≠ "history"),
    alookup_dictInsert_ne _ _ (by decide : ("first_date" : String) ≠ "history"),
    alookup_dictInsert_ne _ _ (by decide : ("last_date" : String) ≠ "history"),
    alookup_dictInsert_ne _ _ (by decide : ("Y_FIRST" : String) ≠ "history"),
    alookup_dictInsert_ne _ _ (by decide : ("X_FIRST" : String) ≠ "history"),
    alookup_dictInsert_ne _ _ (by decide : ("Y_STEP" : String) ≠ "history"),
    alookup_dictInsert_ne _ _ (by decide : ("X_STEP" : String) ≠ "history"),
    alookup_dictInsert_ne _ _ (by decide : ("LENGTH" : String) ≠ "history"),
    alookup_dictInsert_ne _ _ (by decide : ("WIDTH" : String) ≠ "history")]

/-- C7: with `update_mode` set the second (end) date token of the
filename is the literal `XXXXXXXX` regardless of the value of
`last_date`; with `update_mode` unset it is `last_date` reformatted
from `YYYY-MM-DD` to `YYYYMMDD`. -/
theorem C7_update_mode_end_date :
    ∀ (m : VDict) (sat sw fds lds d1 d2 : String) (bs ro fr : Int),
      alookup m "mission" = some (Value.str sat) →
      alookup m "beam_mode" = some (Value.str sw) →
      alookup m "beam_swath" = some (Value.int bs) →
      alookup m "relative_orbit" = some (Value.int ro) →
      alookup m "frame" = some (Value.int fr) →
      alookup m "first_frame" = Option.none →
      alookup m "last_frame" = Option.none →
      alookup m "first_date" = some (Value.str fds) →
      reformatISO fds = some d1 →
      alookup m "last_date" = some (Value.str lds) →
      reformatISO lds = some d2 →
      get_output_filename m true false =
        Except.ok (sat ++ "_" ++ (if truthyV (Value.int bs) then sw ++ intStr bs else sw) ++
          "_" ++ padInt 3 ro ++ "_" ++ padInt 4 fr ++ "_" ++ d1 ++ "_" ++ "XXXXXXXX" ++
          ".he5") ∧
      get_output_filename m false false =
        Except.ok (sat ++ "_" ++ (if truthyV (Value.int bs) then sw ++ intStr bs else sw) ++
          "_" ++ padInt 3 ro ++ "_" ++ padInt 4 fr ++ "_" ++ d1 ++ "_" ++ d2 ++ ".he5") := by
  intro m sat sw fds lds d1 d2 bs ro fr hm hbm hbs hro hfr hff hlf hfd hd1 hld hd2
  constructor <;>
  · unfold get_output_filename
    simp only [getV, hm, hbm, hbs, hro, hfr, hff, hlf, hfd, hld, asStrE, pyIntVE, hd1, hd2]
    simp [strV]

/-- A concrete archive metadata mapping matching the translator's
output for the end-to-end example. -/
def fnameEx : VDict :=
  [("mission", Value.str "S1"), ("beam_mode", Value.str "IW"), ("beam_swath", Value.int 1),
   ("relative_orbit", Value.int 5), ("frame", Value.int 117),
   ("first_date", Value.str "2015-01-01"), ("last_date", Value.str "2018-12-31"),
   ("history", Value.str "2018-06-01")]

/-- C7 witness: the concrete mapping, through
`C7_update_mode_end_date`. -/
theorem C7_update_mode_end_date_witness :
    get_output_filename fnameEx true false =
      Except.ok "S1_IW1_005_0117_20150101_XXXXXXXX.he5" ∧
    get_output_filename fnameEx false false =
      Except.ok "S1_IW1_005_0117_20150101_20181231.he5" := by
  have h := C7_update_mode_end_date fnameEx "S1" "IW" "2015-01-01" "2018-12-31"
    "20150101" "20181231" 1 5 117 rfl rfl rfl rfl rfl rfl rfl rfl rfl rfl rfl
  exact ⟨by rw [h.1]; rfl, by rw [h.2]; rfl⟩

/-- Claim-side encoding of one latitude bound of the subset suffix:
hemisphere letter (`N` for nonnegative, `S` for negative), then the
absolute value in milli-degrees rounded to the nearest integer (ties
to even), zero padded to 5 digits. -/
def latToken (q : ℚ) : String :=
  if q < 0 then "S" ++ padInt 5 (pyRound (|q| * 1000)) else "N" ++ padInt 5 (pyRound (q * 1000))

/-- Claim-side encoding of one longitude bound: `E`/`W`, 6 digits. -/
def lonToken (q : ℚ) : String :=
  if q < 0 then "W" ++ padInt 6 (pyRound (|q| * 1000)) else "E" ++ padInt 6 (pyRound (q * 1000))

/-- An archive metadata mapping with fixed name components and the six
geocoding anchors as parameters. -/
def m4gen (yf xf ys xs ln w : String) : VDict :=
  [("mission", Value.str "S1"), ("beam_mode", Value.str "IW"), ("beam_swath", Value.int 0),
   ("relative_orbit", Value.int 5), ("frame", Value.int 117),
   ("first_date", Value.str "2015-01-01"), ("last_date", Value.str "2018-12-31"),
   ("Y_FIRST", Value.str yf), ("X_FIRST", Value.str xf), ("Y_STEP", Value.str ys),
   ("X_STEP", Value.str xs), ("LENGTH", Value.str ln), ("WIDTH", Value.str w)]

unseal Rat.add Rat.mul Rat.inv Rat.sub in
/-- C4 counterexample: with `Y_FIRST=10.0` and a *positive*
`Y_STEP=0.001` (`LENGTH=400`), the first latitude token of the subset
suffix is `N10400` — the *maximum* latitude (10.4) — and the second is
`N10000` (the minimum, 10.0), so the four bounds are not emitted in
the claimed order min-latitude, max-latitude, min-longitude,
max-longitude; the filename the claimed ordering would give differs
from the one produced. -/
theorem C4_subset_suffix_counterexample :
    get_output_filename (m4gen "10.0" "130.5" "0.001" "0.001" "400" "600") false true =
      Except.ok "S1_IW_005_0117_20150101_20181231_N10400_N10000_E130500_E131100.he5" ∧
    ("S1_IW_005_0117_20150101_20181231_N10400_N10000_E130500_E131100.he5" : String) ≠
      "S1_IW_005_0117_20150101_20181231_N10000_N10400_E130500_E131100.he5" := by
  constructor
  · rfl
  · decide

set_option maxHeartbeats 1000000 in
/-- C4 amended: for the claim's concrete instance (`X_FIRST=130.5`,
`Y_FIRST=32.1`, `X_STEP=0.001`, `Y_STEP=-0.001`, `WIDTH=600`,
`LENGTH=400`) the inserted suffix is exactly
`_N31700_N32100_E130500_E131100` (see the witness); in general each
bound is a hemisphere letter (`N`/`S` for latitude, `E`/`W` for
longitude by sign) followed by the absolute value in milli-degrees
rounded to the nearest integer, zero-padded to 5 digits for latitude
and 6 for longitude, and the four tokens appear in the order
`Y_FIRST + Y_STEP*LENGTH`, `Y_FIRST`, `X_FIRST`,
`X_FIRST + X_STEP*WIDTH` — which is min-latitude, max-latitude,
min-longitude, max-longitude whenever `Y_STEP ≤ 0 ≤ X_STEP` and
`LENGTH`, `WIDTH` are nonnegative, as stated here. -/
theorem C4_subset_suffix_amended :
    ∀ (yf xf ys xs ln w : String) (qyf qxf qys qxs : ℚ) (nl nw : Int),
      pyFloat yf = some qyf → pyFloat xf = some qxf →
      pyFloat ys = some qys → pyFloat xs = some qxs →
      pyInt ln = some nl → pyInt w = some nw →
      qys ≤ 0 → 0 ≤ qxs → 0 ≤ nl → 0 ≤ nw →
      get_output_filename (m4gen yf xf ys xs ln w) false true =
        Except.ok ("S1_IW_005_0117_20150101_20181231" ++ "_" ++
          latToken (min (qyf + qys * (nl : ℚ)) qyf) ++ "_" ++
          latToken (max (qyf + qys * (nl : ℚ)) qyf) ++ "_" ++
          lonToken (min qxf (qxf + qxs * (nw : ℚ))) ++ "_" ++
          lonToken (max qxf (qxf + qxs * (nw : ℚ))) ++ ".he5") := by
  intro yf xf ys xs ln w qyf qxf qys qxs nl nw h1 h2 h3 h4 h5 h6 hys hxs hnl hnw
  have hlat : qyf + qys * (nl : ℚ) ≤ qyf := by
    have hc : (0 : ℚ) ≤ (nl : ℚ) := by exact_mod_cast hnl
    nlinarith
  have hlon : qxf ≤ qxf + qxs * (nw : ℚ) := by
    have hc : (0 : ℚ) ≤ (nw : ℚ) := by exact_mod_cast hnw
    nlinarith
  rw [min_eq_left hlat, max_eq_right hlat, min_eq_left hlon, max_eq_right hlon]
  have e1 : getV (m4gen yf xf ys xs ln w) "mission" = Except.ok (Value.str "S1") := rfl
  have e2 : getV (m4gen yf xf ys xs ln w) "beam_mode" = Except.ok (Value.str "IW") := rfl
  have e3 : getV (m4gen yf xf ys xs ln w) "beam_swath" = Except.ok (Value.int 0) := rfl
  have e4 : getV (m4gen yf xf ys xs ln w) "relative_orbit" = Except.ok (Value.int 5) := rfl
  have e5 : getV (m4gen yf xf ys xs ln w) "frame" = Except.ok (Value.int 117) := rfl
  have e6 : getV (m4gen yf xf ys xs ln w) "first_date" =
    Except.ok (Value.str "2015-01-01") := rfl
  have e7 : getV (m4gen yf xf ys xs ln w) "last_date" =
    Except.ok (Value.str "2018-12-31") := rfl
  have e8 : getV (m4gen yf xf ys xs ln w) "Y_FIRST" = Except.ok (Value.str yf) := rfl
  have e9 : getV (m4gen yf xf ys xs ln w) "X_FIRST" = Except.ok (Value.str xf) := rfl
  have e10 : getV (m4gen yf xf ys xs ln w) "Y_STEP" = Except.ok (Value.str ys) := rfl
  have e11 : getV (m4gen yf xf ys xs ln w) "X_STEP" = Except.ok (Value.str xs) := rfl
  have e12 : getV (m4gen yf xf ys xs ln w) "LENGTH" = Except.ok (Value.str ln) := rfl
  have e13 : getV (m4gen yf xf ys xs ln w) "WIDTH" = Except.ok (Value.str w) := rfl
  have f1 : alookup (m4gen yf xf ys xs ln w) "first_frame" = Option.none := rfl
  have f2 : alookup (m4gen yf xf ys xs ln w) "last_frame" = Option.none := rfl
  have g1 : reformatISO "2015-01-01" = some "20150101" := rfl
  have g2 : reformatISO "2018-12-31" = some "20181231" := rfl
  unfold get_output_filename
  simp only [e1, e2, e3, e4, e5, e6, e7, e8, e9, e10, e11, e12, e13, f1, f2,
    asStrE, pyIntVE, pyFloatVE, h1, h2, h3, h4, h5, h6, g1, g2]
  rfl

unseal Rat.add Rat.mul Rat.inv Rat.sub in
/-- C4 witness: the claim's concrete instance, through
`C4_subset_suffix_amended`: the inserted suffix is exactly
`_N31700_N32100_E130500_E131100`. -/
theorem C4_subset_suffix_amended_witness :
    get_output_filename (m4gen "32.1" "130.5" "-0.001" "0.001" "400" "600") false true =
      Except.ok "S1_IW_005_0117_20150101_20181231_N31700_N32100_E130500_E131100.he5" := by
  have h := C4_subset_suffix_amended "32.1" "130.5" "-0.001" "0.001" "400" "600"
    ((pyFloat "32.1").getD 0) ((pyFloat "130.5").getD 0)
    ((pyFloat "-0.001").getD 0) ((pyFloat "0.001").getD 0) 400 600
    rfl rfl rfl rfl rfl rfl (by decide) (by decide) (by decide) (by decide)
  rw [h]
  rfl
